import Mathlib

/-! ### Definitions -/

/-!
Verification of the Tic-Tac-Toe engine of this repository.

The development shallowly embeds the game-logic source files:
- `src/src/mini_max_algo.py`    (namespace `MiniMax`): recursive minimax search.
- `src/src/mini_max_algo_v2.py` (namespace `MiniMaxV2`): rule-priority strategy.
- `run_simulation.py`           (namespace `RunSim`): validator and winner check.

Boards are 3x3 nested lists of Python strings; in-place cell mutation with
manual save/restore (as done by the Python search) is embedded by threading the
board state explicitly: every function that mutates the board returns the
resulting board next to its value, so the claimed restore discipline becomes a
provable statement instead of an assumption.

Python dictionaries are embedded as association lists looked up with `dictGet`;
an absent key (Python `KeyError`) surfaces as `none`.
-/

/-- A board is a (nominally 3x3) nested list of Python strings. -/
abbrev Board := List (List String)

/-- `board[i][j]` (reads out of range give `""`; all verified call sites stay
in range on 3x3 boards). -/
def getCell (b : Board) (i j : Nat) : String :=
  (b.getD i []).getD j ""

/-- `board[i][j] = v` (writes out of range are dropped, as `List.set` is). -/
def setCell (b : Board) (i j : Nat) (v : String) : Board :=
  b.set i ((b.getD i []).set j v)

/-- Iteration order of `for i in range(3): for j in range(3)`. -/
def cellsIdx : List (Nat × Nat) :=
  [(0,0),(0,1),(0,2),(1,0),(1,1),(1,2),(2,0),(2,1),(2,2)]

/-- Iteration order of `for i in range(n): for j in range(n)` (the validator
loops run both indices over `len(grid)`). -/
def squareIdx (n : Nat) : List (Nat × Nat) :=
  (List.range n).bind fun i => (List.range n).map fun j => (i, j)

/-- Python dict lookup on an association list; `none` models `KeyError` for
`d[k]` and `None` for `d.get(k)`. -/
def dictGet [BEq κ] (d : List (κ × α)) (k : κ) : Option α :=
  (d.find? fun e => e.1 == k).map (·.2)

/-- ASCII lower-casing of one character (the case mapping Python `str.lower()`
applies to the basic latin letters this program compares). -/
def pyLowerChar (c : Char) : Char :=
  if c == 'A' then 'a' else if c == 'B' then 'b' else if c == 'C' then 'c'
  else if c == 'D' then 'd' else if c == 'E' then 'e' else if c == 'F' then 'f'
  else if c == 'G' then 'g' else if c == 'H' then 'h' else if c == 'I' then 'i'
  else if c == 'J' then 'j' else if c == 'K' then 'k' else if c == 'L' then 'l'
  else if c == 'M' then 'm' else if c == 'N' then 'n' else if c == 'O' then 'o'
  else if c == 'P' then 'p' else if c == 'Q' then 'q' else if c == 'R' then 'r'
  else if c == 'S' then 's' else if c == 'T' then 't' else if c == 'U' then 'u'
  else if c == 'V' then 'v' else if c == 'W' then 'w' else if c == 'X' then 'x'
  else if c == 'Y' then 'y' else if c == 'Z' then 'z' else c

/-- Python `str.lower()` (ASCII case mapping suffices for the symbols used). -/
def pyLower (s : String) : String :=
  ⟨s.data.map pyLowerChar⟩

/-- The whitespace characters stripped by Python `str.strip()`. -/
def isPySpace (c : Char) : Bool :=
  c == ' ' || c == '\t' || c == '\n' || c == '\r' || c == '\x0b' || c == '\x0c'

/-- Python `str.strip()`. -/
def pyStrip (s : String) : String :=
  ⟨((s.data.dropWhile isPySpace).reverse.dropWhile isPySpace).reverse⟩
namespace MiniMax

/-- `rectangle_mapping` of `mini_max_algo.py`: (row, col) to grid cell 1..9. -/
def rectangle_mapping : List ((Nat × Nat) × Nat) :=
  [((0,0),1), ((0,1),2), ((0,2),3),
   ((1,0),4), ((1,1),5), ((1,2),6),
   ((2,0),7), ((2,1),8), ((2,2),9)]

/-- One turn of the loop in `TicTacToeAI.check_winner`: row `i`, then column
`i`, first hit wins. -/
def rowColCheck (b : Board) (i : Nat) : Option String :=
  if getCell b i 0 == getCell b i 1 && getCell b i 1 == getCell b i 2
      && getCell b i 2 != "" then some (getCell b i 0)
  else if getCell b 0 i == getCell b 1 i && getCell b 1 i == getCell b 2 i
      && getCell b 2 i != "" then some (getCell b 0 i)
  else none

/-- `TicTacToeAI.check_winner`: rows/columns in loop order, then the two
diagonals; returns the winning symbol or `none`. -/
def check_winner (b : Board) : Option String :=
  (rowColCheck b 0).orElse fun _ => (rowColCheck b 1).orElse fun _ =>
  (rowColCheck b 2).orElse fun _ =>
  (if getCell b 0 0 == getCell b 1 1 && getCell b 1 1 == getCell b 2 2
      && getCell b 2 2 != "" then some (getCell b 0 0)
   else if getCell b 0 2 == getCell b 1 1 && getCell b 1 1 == getCell b 2 0
      && getCell b 2 0 != "" then some (getCell b 0 2)
   else none)

/-- `TicTacToeAI.is_full`. -/
def is_full (b : Board) : Bool :=
  cellsIdx.all fun p => getCell b p.1 p.2 != ""

/-- The `for i in range(3): for j in range(3)` search loop shared by both
branches of `minimax`: place `sym` on each empty cell, recurse (`mm` is the
recursive call with depth already incremented), restore the cell, and keep the
running best score.  Python's `float('-inf')`/`float('inf')` seeds are passed
in as `best` (the seeds `-100`/`100` used below are below/above every
reachable score, which lies in `[-10, 10]`). -/
def searchLoop (mm : Board → Bool → Int × Board) (sym : String) (isMax : Bool)
    (cells : List (Nat × Nat)) (b : Board) (best : Int) : Int × Board :=
  match cells with
  | [] => (best, b)
  | (i, j) :: rest =>
    if getCell b i j == "" then
      let b1 := setCell b i j sym
      let sb := mm b1 (!isMax)
      let b3 := setCell sb.2 i j ""
      searchLoop mm sym isMax rest b3
        (if isMax then max sb.1 best else min sb.1 best)
    else searchLoop mm sym isMax rest b best

/-- `TicTacToeAI.minimax`, with explicit board threading and a fuel argument
for termination (fuel 9 suffices on 3x3 boards: each level fills a cell, and a
full board is terminal). -/
def minimaxF (ai human : String) : Nat → Board → Nat → Bool → Int × Board
  | 0, b, _, _ => (0, b)
  | fuel+1, b, depth, is_max =>
    let result := check_winner b
    if result == some ai then (10 - (depth : Int), b)
    else if result == some human then ((depth : Int) - 10, b)
    else if is_full b then (0, b)
    else if is_max then
      searchLoop (fun b' m => minimaxF ai human fuel b' (depth+1) m) ai true
        cellsIdx b (-100)
    else
      searchLoop (fun b' m => minimaxF ai human fuel b' (depth+1) m) human false
        cellsIdx b 100

/-- `TicTacToeAI.minimax` at adequate fuel. -/
def minimax (ai human : String) (b : Board) (depth : Nat) (is_max : Bool) :
    Int × Board :=
  minimaxF ai human 9 b depth is_max

/-- `score > best_score` where `best_score` starts as `float('-inf')`
(modelled as `none`). -/
def gtOpt (s : Int) : Option Int → Bool
  | none => true
  | some t => t < s

/-- The candidate loop of `TicTacToeAI.get_best_move`. -/
def bestLoop (ai human : String) (cells : List (Nat × Nat)) (b : Board)
    (best_score : Option Int) (best_move : Option (Nat × Nat)) :
    Option (Nat × Nat) × Board :=
  match cells with
  | [] => (best_move, b)
  | (i, j) :: rest =>
    if getCell b i j == "" then
      let b1 := setCell b i j ai
      let sb := minimax ai human b1 0 false
      let b3 := setCell sb.2 i j ""
      if gtOpt sb.1 best_score then
        bestLoop ai human rest b3 (some sb.1) (some (i, j))
      else
        bestLoop ai human rest b3 best_score best_move
    else bestLoop ai human rest b best_score best_move

/-- `TicTacToeAI.get_best_move` (value and final board). -/
def get_best_move (ai human : String) (b : Board) : Option (Nat × Nat) × Board :=
  bestLoop ai human cellsIdx b none none

/-- Result of `run_algorithm` in `mini_max_algo.py`: either one of its message
strings or the looked-up grid cell number. -/
inductive RunResult where
  | msg (s : String)
  | cell (n : Option Nat)
deriving DecidableEq

/-- `run_algorithm(board=...)` of `mini_max_algo.py` with the default engine
(`ai_symbol='O'`, `human_symbol='X'`) and a non-`None` board: on `None` from
`get_best_move` it returns the string `"No valid moves available"`, otherwise
`rectangle_mapping.get(move)`. -/
def run_algorithm (board : Board) : RunResult :=
  match (get_best_move "O" "X" board).1 with
  | none => .msg "No valid moves available"
  | some mv => .cell (dictGet rectangle_mapping mv)
end MiniMax

/-! ### Fold forms of the search loops -/

/-- Fold computing a running `max` over the scores of the empty cells. -/
def cfoldMax (P : Nat × Nat → Bool) (f : Nat × Nat → Int)
    (l : List (Nat × Nat)) (init : Int) : Int :=
  l.foldl (fun acc c => if P c then max (f c) acc else acc) init

/-- Fold computing a running `min` over the scores of the empty cells. -/
def cfoldMin (P : Nat × Nat → Bool) (f : Nat × Nat → Int)
    (l : List (Nat × Nat)) (init : Int) : Int :=
  l.foldl (fun acc c => if P c then min (f c) acc else acc) init

/-! ### Strategy-restricted search bounds

To evaluate minimax scores of sparse boards inside the kernel, the full search
is bounded by a restricted search in which one side follows a fixed strategy
(a single reply per position) while the other side still branches over every
move.  The restricted tree is small enough to evaluate directly. -/

/-- Upper bound on the maximizing player's score: the minimizing player follows
`strat` (an illegal strategy reply yields the vacuous bound 100). -/
def ubF (ai human : String) (strat : Board → Nat × Nat) :
    Nat → Board → Nat → Bool → Int
  | 0, _, _, _ => 0
  | fuel+1, b, depth, is_max =>
    if MiniMax.check_winner b == some ai then 10 - (depth : Int)
    else if MiniMax.check_winner b == some human then (depth : Int) - 10
    else if MiniMax.is_full b then 0
    else if is_max then
      cfoldMax (fun c => getCell b c.1 c.2 == "")
        (fun c => ubF ai human strat fuel (setCell b c.1 c.2 ai) (depth+1) false)
        cellsIdx (-100)
    else if cellsIdx.contains (strat b) && getCell b (strat b).1 (strat b).2 == "" then
      ubF ai human strat fuel (setCell b (strat b).1 (strat b).2 human) (depth+1) true
    else 100

/-- Lower bound on the maximizing player's score: the maximizing player follows
`strat` (an illegal strategy reply yields the vacuous bound -100). -/
def lbF (ai human : String) (strat : Board → Nat × Nat) :
    Nat → Board → Nat → Bool → Int
  | 0, _, _, _ => 0
  | fuel+1, b, depth, is_max =>
    if MiniMax.check_winner b == some ai then 10 - (depth : Int)
    else if MiniMax.check_winner b == some human then (depth : Int) - 10
    else if MiniMax.is_full b then 0
    else if is_max then
      (if cellsIdx.contains (strat b) && getCell b (strat b).1 (strat b).2 == "" then
        lbF ai human strat fuel (setCell b (strat b).1 (strat b).2 ai) (depth+1) false
      else -100)
    else
      cfoldMin (fun c => getCell b c.1 c.2 == "")
        (fun c => lbF ai human strat fuel (setCell b c.1 c.2 human) (depth+1) true)
        cellsIdx 100

/-! ### Concrete draw-securing reply tables

The tables map a base-3 board code (digit `3*i + j` is 0 for empty, 1 for
`"O"`, 2 for `"X"`) to the reply cell `k` meaning cell `(k / 3, k % 3)`.
They hold one optimal reply for every position the fixed player can face in
the restricted trees used below. -/

/-- Base-3 digit of a cell for the board code. -/
def cellCode (s : String) : Nat :=
  if s == "O" then 1 else if s == "X" then 2 else 0

/-- Base-3 code of a board. -/
def encodeB (b : Board) : Nat :=
  (List.range 9).foldl (fun acc k => acc + cellCode (getCell b (k/3) (k%3)) * 3 ^ k) 0

/-- Strategy given by a reply table (unknown positions give an out-of-board
reply, which the bound functions treat as a vacuous bound). -/
def tabStrat (tab : List (Nat × Nat)) (b : Board) : Nat × Nat :=
  match dictGet tab (encodeB b) with
  | some k => (k / 3, k % 3)
  | none => (9, 9)

/-- Replies securing at least a draw for `"X"` against every continuation,
from each opening move of `"O"` other than the top-left corner. -/
def xReplyTable : List (Nat × Nat) :=
  [(10611, 2), (10395, 2), (10890, 0), (10866, 3), (10864, 3), (10377, 5), (10371, 0), (10369, 2), (8910, 6), (9171, 6), (12114, 1), (12090, 0), (12088, 1), (7713, 7), (6987, 6), (6985, 1), (6966, 2), (10640, 2), (10406, 5), (8939, 6), (6750, 0), (6726, 0), (8917, 6), (7459, 7), (9178, 6), (7720, 7), (7018, 6), (6973, 2), (8458, 2), (8224, 7), (6757, 6), (6724, 1), (6561, 4), (10538, 2), (10322, 2), (10293, 0), (8754, 6), (16370, 2), (16298, 4), (16287, 0), (16386, 0), (16170, 0), (16144, 5), (16125, 2), (16316, 2), (16154, 2), (16082, 4), (16071, 0), (16053, 4), (16342, 2), (16180, 2), (16108, 4), (16045, 3), (2922, 8), (10554, 0), (10474, 4), (10455, 2), (10590, 0), (4038, 0), (4030, 8), (3975, 3), (2436, 6), (2274, 0), (10500, 0), (10338, 0), (10258, 4), (10239, 2), (10644, 2), (3921, 4), (10806, 0), (4254, 0), (4246, 8), (3759, 5), (2220, 6), (10788, 0), (10734, 0), (10708, 4), (10221, 5), (17106, 3), (17052, 4), (17026, 3), (3903, 8), (3741, 0), (10410, 5), (4092, 8), (3687, 4), (2202, 6), (10213, 4), (10618, 2), (3895, 4), (17098, 3), (16882, 5), (16864, 3), (3733, 8), (10402, 2), (4084, 2), (3679, 4), (10384, 5), (4066, 8), (3850, 5), (3661, 4), (2194, 6), (2187, 1), (12069, 1), (11853, 1), (11835, 1), (11829, 0), (11827, 1), (7452, 7), (16443, 0), (16227, 0), (16209, 0), (16203, 0), (16498, 1), (16264, 5), (16258, 5), (16201, 3), (3078, 8), (7701, 7), (16476, 0), (16450, 3), (3327, 8), (1167, 0), (1141, 7), (1134, 1), (12098, 1), (11864, 1), (7481, 7), (3107, 8), (918, 0), (894, 0), (7507, 5), (3133, 5), (7756, 7), (3382, 8), (1189, 1), (955, 1), (949, 5), (892, 3), (729, 4), (6827, 6), (6822, 0), (9011, 1), (2531, 1), (2453, 4), (2448, 0), (7553, 1), (3179, 1), (1019, 1), (995, 4), (990, 0), (6957, 0), (9150, 0), (3318, 0), (2590, 8), (2583, 1), (1125, 0), (342, 3), (7011, 0), (2637, 0), (3368, 1), (1179, 0), (453, 0), (451, 6), (288, 4), (10524, 0), (8418, 0), (8338, 4), (6879, 6), (9228, 6), (2505, 4), (7770, 7), (3396, 8), (1047, 4), (11334, 0), (5502, 0), (4774, 8), (399, 7), (264, 3), (6877, 4), (9226, 6), (2503, 4), (7768, 7), (3394, 8), (1045, 4), (15706, 1), (14248, 1), (13522, 7), (397, 8), (7042, 6), (2668, 6), (1210, 7), (319, 4), (262, 3), (243, 2), (8849, 1), (6905, 1), (6665, 7), (6644, 2), (8837, 2), (3005, 2), (2519, 2), (2303, 2), (10304, 3), (3986, 3), (3770, 5), (2285, 6), (2270, 1), (7391, 1), (3017, 1), (1073, 1), (857, 1), (833, 7), (812, 2), (9146, 1), (6962, 6), (6941, 2), (9134, 2), (3302, 2), (2582, 6), (2567, 1), (7688, 1), (3314, 1), (1130, 7), (1109, 2), (389, 6), (383, 6), (326, 3), (8111, 3), (3737, 3), (1793, 3), (1577, 5), (1553, 3), (92, 6), (81, 0), (7337, 1), (6851, 1), (6689, 1), (6611, 4), (6590, 2), (8795, 1), (2963, 1), (2477, 1), (2315, 1), (2237, 4), (2216, 2), (7325, 2), (2951, 2), (1007, 2), (845, 2), (773, 4), (758, 1), (9200, 1), (7742, 1), (6995, 2), (9188, 2), (2636, 8), (2621, 1), (7730, 2), (3356, 2), (1163, 1), (272, 4), (7892, 2), (7172, 6), (7157, 1), (9350, 2), (3518, 2), (2798, 6), (2783, 1), (7904, 1), (3530, 1), (1346, 8), (1325, 2), (8624, 1), (4250, 1), (2066, 7), (605, 6), (599, 7), (110, 5), (38, 4), (27, 0), (9405, 3), (7947, 3), (7245, 0), (7221, 3), (7219, 1), (6732, 5), (8973, 5), (3141, 5), (16506, 0), (15780, 0), (15778, 1), (2655, 8), (2415, 0), (2413, 5), (2358, 3), (7467, 7), (16458, 0), (16242, 0), (16216, 3), (3093, 8), (1149, 7), (933, 0), (900, 1), (15723, 0), (14265, 0), (13563, 0), (13539, 0), (15730, 3), (14272, 7), (13570, 7), (13537, 1), (414, 8), (9434, 6), (7976, 7), (6761, 5), (2387, 8), (7496, 7), (3122, 8), (1178, 7), (929, 1), (443, 8), (198, 0), (419, 8), (174, 0), (9412, 3), (7954, 3), (7252, 7), (6739, 5), (8980, 5), (2662, 8), (2365, 3), (7522, 5), (3148, 5), (1204, 7), (907, 3), (421, 7), (205, 7), (172, 1), (9, 4), (7718, 7), (6971, 2), (9410, 3), (7952, 3), (7250, 6), (6737, 5), (6566, 4), (10616, 2), (10400, 2), (10382, 3), (8915, 6), (9176, 6), (3344, 8), (2597, 2), (2363, 3), (2192, 4), (12074, 2), (11858, 2), (11840, 5), (7457, 7), (3083, 8), (1139, 8), (905, 3), (734, 4), (10472, 3), (8366, 3), (8312, 4), (8267, 2), (3893, 3), (1787, 3), (8456, 2), (4082, 2), (1904, 8), (1733, 4), (1715, 3), (248, 6), (11282, 3), (11066, 5), (11021, 2), (11768, 3), (5450, 3), (5234, 5), (5189, 2), (11318, 6), (5486, 2), (4766, 6), (4703, 3), (11534, 2), (5702, 2), (4982, 6), (4487, 5), (12488, 3), (6170, 3), (5954, 8), (4469, 6), (86, 7), (7502, 7), (6755, 2), (8960, 6), (3128, 8), (2381, 2), (923, 8), (7016, 6), (2642, 6), (1184, 8), (437, 2), (203, 8), (32, 4), (9302, 4), (7844, 4), (7196, 6), (6629, 5), (8978, 5), (2660, 6), (2255, 4), (7520, 5), (3146, 5), (1202, 8), (797, 4), (311, 6), (149, 6), (14, 3), (3, 0)]

/-- Replies securing at least a draw for `"O"` against every continuation,
after `"O"` has opened in the top-left corner. -/
def oReplyTable : List (Nat × Nat) :=
  [(14590, 1), (13294, 1), (13186, 1), (18241, 3), (14353, 3), (14029, 3), (13921, 4), (13138, 6), (13123, 2), (17506, 1), (5842, 1), (4546, 1), (4438, 1), (17593, 6), (5929, 8), (17890, 6), (6226, 8), (4525, 5), (4390, 4), (4375, 2), (14584, 2), (5836, 2), (1948, 2), (14683, 7), (5935, 8), (2047, 7), (1480, 4), (1459, 1), (13618, 1), (4870, 1), (1954, 1), (658, 1), (550, 1), (13705, 6), (4957, 3), (2041, 8), (637, 6), (502, 4), (487, 2), (13288, 2), (4540, 2), (1624, 2), (652, 2), (14035, 3), (5287, 3), (1399, 3), (14332, 7), (5584, 8), (967, 5), (184, 6), (163, 1), (13180, 2), (4432, 2), (1516, 2), (544, 2), (220, 2), (13279, 7), (4531, 8), (14980, 7), (6232, 8), (1615, 5), (643, 7), (76, 4), (55, 1), (17785, 4), (14869, 4), (13573, 6), (13417, 4), (13168, 5), (17623, 5), (4987, 6), (4420, 4), (14707, 5), (5959, 5), (2071, 8), (1504, 4), (532, 6), (208, 6), (19, 3), (13156, 4), (17611, 5), (4408, 4), (14695, 5), (5947, 5), (1492, 4), (13723, 6), (18106, 6), (6442, 8), (4975, 2), (2059, 8), (520, 4), (196, 6), (13255, 5), (4507, 5), (1591, 5), (619, 6), (52, 4), (7, 3)]

/-- The empty 3x3 board. -/
def emptyBd : Board := [["","",""],["","",""],["","",""]]

/-! ### The candidate fold behind `get_best_move` -/

/-- Score of placing `ai` at cell `c` of `b`, as computed by the search. -/
def moveScore (ai human : String) (b : Board) (c : Nat × Nat) : Int :=
  (MiniMax.minimax ai human (setCell b c.1 c.2 ai) 0 false).1

/-- Pure fold mirroring `bestLoop` (the board is restored each iteration, so
all scores are taken on the same board). -/
def bestFold (ai human : String) (b : Board) (cells : List (Nat × Nat))
    (st : Option Int × Option (Nat × Nat)) : Option Int × Option (Nat × Nat) :=
  cells.foldl (fun s c =>
    if getCell b c.1 c.2 == "" then
      if MiniMax.gtOpt (moveScore ai human b c) s.1 then
        (some (moveScore ai human b c), some c)
      else s
    else s) st
namespace MiniMaxV2

/-- `LINES` of `mini_max_algo_v2.py`: 3 rows, 3 columns, 2 diagonals. -/
def LINES : List (List (Nat × Nat)) :=
  [[(0,0),(0,1),(0,2)], [(1,0),(1,1),(1,2)], [(2,0),(2,1),(2,2)],
   [(0,0),(1,0),(2,0)], [(0,1),(1,1),(2,1)], [(0,2),(1,2),(2,2)],
   [(0,0),(1,1),(2,2)], [(0,2),(1,1),(2,0)]]

/-- `vals = [board[r][c] for r, c in line]`. -/
def lineVals (b : Board) (l : List (Nat × Nat)) : List String :=
  l.map fun rc => getCell b rc.1 rc.2

/-- `TicTacToeAI._check_winner` of `mini_max_algo_v2.py`: first line whose
three values agree and are non-empty. -/
def check_winner (b : Board) : Option String :=
  match LINES.find? (fun l =>
    match lineVals b l with
    | [x, y, z] => x == y && y == z && z != ""
    | _ => false) with
  | some l => some (getCell b (l.getD 0 (0,0)).1 (l.getD 0 (0,0)).2)
  | none => none

/-- `TicTacToeAI._count_threats`: lines holding two of `p` and one empty. -/
def count_threats (b : Board) (p : String) : Nat :=
  LINES.countP fun l =>
    (lineVals b l).count p == 2 && (lineVals b l).count "" == 1

/-- `TicTacToeAI._find_winning_move`: first empty cell whose occupation wins
for `p` (the hypothetical placement is undone before testing the next cell,
which the pure reading expresses by probing `setCell` on the original board). -/
def find_winning_move (b : Board) (p : String) : Option (Nat × Nat) :=
  cellsIdx.find? fun c =>
    getCell b c.1 c.2 == "" && (check_winner (setCell b c.1 c.2 p) == some p)

/-- `TicTacToeAI._find_fork`: first empty cell creating two or more threats. -/
def find_fork (b : Board) (p : String) : Option (Nat × Nat) :=
  cellsIdx.find? fun c =>
    getCell b c.1 c.2 == "" && decide (count_threats (setCell b c.1 c.2 p) p ≥ 2)

/-- `TicTacToeAI._find_all_forks`. -/
def find_all_forks (b : Board) (p : String) : List (Nat × Nat) :=
  cellsIdx.filter fun c =>
    getCell b c.1 c.2 == "" && decide (count_threats (setCell b c.1 c.2 p) p ≥ 2)

/-- `TicTacToeAI._find_threat_empty`: first empty cell of the first threat
line for `p` (scanning later lines if a line yields nothing). -/
def find_threat_empty (b : Board) (p : String) : Option (Nat × Nat) :=
  LINES.findSome? fun l =>
    if (lineVals b l).count p == 2 && (lineVals b l).count "" == 1 then
      l.find? fun rc => getCell b rc.1 rc.2 == ""
    else none

/-- `TicTacToeAI._create_forcing_threat`: first empty cell where placing the
AI symbol yields a threat whose forced block leaves the opponent forkless. -/
def create_forcing_threat (ai human : String) (b : Board) : Option (Nat × Nat) :=
  cellsIdx.find? fun c =>
    getCell b c.1 c.2 == "" &&
    (decide (count_threats (setCell b c.1 c.2 ai) ai > 0) &&
     (match find_threat_empty (setCell b c.1 c.2 ai) ai with
      | some tp =>
        (find_all_forks (setCell (setCell b c.1 c.2 ai) tp.1 tp.2 human) human).length == 0
      | none => false))

/-- `TicTacToeAI._opposite_corner`. -/
def opposite_corner (human : String) (b : Board) : Option (Nat × Nat) :=
  ([((0,0),(2,2)), ((0,2),(2,0))] : List ((Nat × Nat) × (Nat × Nat))).findSome?
    fun p =>
      if getCell b p.1.1 p.1.2 == human && getCell b p.2.1 p.2.2 == "" then some p.2
      else if getCell b p.2.1 p.2.2 == human && getCell b p.1.1 p.1.2 == "" then some p.1
      else none

/-- Outcome of `TicTacToeAI.get_best_move` of `mini_max_algo_v2.py`:
a move, an `InvalidBoardError` with its message, or the final
`ValueError("No valid moves available")`. -/
inductive MoveResult where
  | ok (mv : Nat × Nat)
  | invalidBoard (msg : String)
  | noMovesError
deriving DecidableEq

/-- `TicTacToeAI._validate_board`: the first violated check, or `none`.
Python's `isinstance` checks cannot fail in this typed embedding; the length
checks and the remaining checks are kept in source order. -/
def validate_board (ai human : String) (b : Board) : Option String :=
  if b.length ≠ 3 then some "Board must be 3x3 list"
  else if b.any (fun row => row.length ≠ 3) then some "Each row must contain 3 elements"
  else if b.any (fun row => row.any fun c => c != "" && c != ai && c != human) then
    some "Invalid symbol"
  else if ((((b.map fun row => row.count ai).sum : Int)) -
      ((b.map fun row => row.count human).sum : Int)).natAbs > 1 then
    some "Invalid move counts"
  else if (check_winner b).isSome then some "Game already won"
  else none

/-- `TicTacToeAI.get_best_move` of `mini_max_algo_v2.py`: validation followed
by the eight priorities, in source order. -/
def get_best_move (ai human : String) (b : Board) : MoveResult :=
  match validate_board ai human b with
  | some msg => .invalidBoard msg
  | none =>
    match find_winning_move b ai with
    | some m => .ok m
    | none =>
    match find_winning_move b human with
    | some m => .ok m
    | none =>
    match find_fork b ai with
    | some m => .ok m
    | none =>
    match (if (find_all_forks b human).length == 1 then
             some ((find_all_forks b human).getD 0 (0,0))
           else if (find_all_forks b human).length > 1 then
             create_forcing_threat ai human b
           else none) with
    | some m => .ok m
    | none =>
    if getCell b 1 1 == "" then .ok (1, 1)
    else
    match opposite_corner human b with
    | some m => .ok m
    | none =>
    match ([(0,0),(0,2),(2,0),(2,2)] : List (Nat × Nat)).find?
        (fun p => getCell b p.1 p.2 == "") with
    | some m => .ok m
    | none =>
    match ([(0,1),(1,0),(1,2),(2,1)] : List (Nat × Nat)).find?
        (fun p => getCell b p.1 p.2 == "") with
    | some m => .ok m
    | none => .noMovesError
end MiniMaxV2
namespace RunSim

/-- Python values appearing as keys/entries of the dictionaries of
`run_simulation.py`: grid-cell numbers and (row, col) pairs. -/
inductive PyVal where
  | n (v : Nat)
  | p (v : Nat × Nat)
deriving DecidableEq, BEq

/-- `rectangle_mapping` of `run_simulation.py`. -/
def rectangle_mapping : List ((Nat × Nat) × Nat) :=
  [((0,0),1), ((0,1),2), ((0,2),3),
   ((1,0),4), ((1,1),5), ((1,2),6),
   ((2,0),7), ((2,1),8), ((2,2),9)]

/-- `winning_table` of `run_simulation.py`: the 8 winning position triples,
each mapped to 1. -/
def winning_table : List (List PyVal × Nat) :=
  [([.n 1, .n 2, .n 3], 1), ([.n 4, .n 5, .n 6], 1), ([.n 7, .n 8, .n 9], 1),
   ([.n 1, .n 4, .n 7], 1), ([.n 2, .n 5, .n 8], 1), ([.n 3, .n 6, .n 9], 1),
   ([.n 1, .n 5, .n 9], 1), ([.n 3, .n 5, .n 7], 1)]

/-- `rect_mapping_inv = {v: k for k, v in rectangle_mapping.items()}`: the
keys are the grid-cell numbers 1..9, the values the (row, col) pairs. -/
def rect_mapping_inv : List (PyVal × PyVal) :=
  [(.n 1, .p (0,0)), (.n 2, .p (0,1)), (.n 3, .p (0,2)),
   (.n 4, .p (1,0)), (.n 5, .p (1,1)), (.n 6, .p (1,2)),
   (.n 7, .p (2,0)), (.n 8, .p (2,1)), (.n 9, .p (2,2))]

/-- The module-level `cache` dict of `run_simulation.py`:
(row, col) cells mapped to the symbol recorded there. -/
abbrev Cache := List ((Nat × Nat) × String)

/-- `cache.get((i, j))`. -/
def cacheGet (cache : Cache) (k : Nat × Nat) : Option String :=
  dictGet cache k

/-- The nested loop of `find_rect`: scan cells in row-major order; every cell
whose lowercased content equals the lowercased symbol and that is absent from
the cache overwrites the running `rect` with its grid number and is written to
the cache. -/
def find_rect_loop (grid : Board) (symbol : String) :
    List (Nat × Nat) → Option Nat → Cache → Option Nat × Cache
  | [], rect, cache => (rect, cache)
  | (i, j) :: rest, rect, cache =>
    if pyLower (getCell grid i j) == pyLower symbol && (cacheGet cache (i, j)).isNone then
      find_rect_loop grid symbol rest (dictGet rectangle_mapping (i, j))
        (((i, j), symbol) :: cache)
    else
      find_rect_loop grid symbol rest rect cache

/-- `find_rect` of `run_simulation.py`, with the module cache passed in and
returned (the loops run `i` and `j` over `range(len(grid))`). -/
def find_rect (grid : Board) (symbol : String) (cache : Cache) :
    Option Nat × Cache :=
  find_rect_loop grid symbol (squareIdx grid.length) none cache

/-- `all_cells_empty` of `run_simulation.py` (with the default `empty=''`). -/
def all_cells_empty (grid : Board) : Bool :=
  grid.all fun row => row.all fun cell => cell == ""

/-- `validate_symbol_insertion` of `run_simulation.py`: look up the (row, col)
behind the rect number, compare the stripped and lowercased cell content with
the lowercased symbol.  The fallthrough models the `KeyError` branch, dead at
every call site because `rect_number` is always 1..9 there. -/
def validate_symbol_insertion (rect_number : Nat) (symbol : String)
    (grid : Board) : Bool :=
  match dictGet rect_mapping_inv (.n rect_number) with
  | some (.p pos) => pyLower (pyStrip (getCell grid pos.1 pos.2)) == pyLower symbol
  | _ => false

/-- `validate_grid_count` of `run_simulation.py`: the check passes exactly
when `iteration_count` equals the number of non-empty cells counted by the
`range(len(grid))` loops. -/
def validate_grid_count (grid : Board) (iteration_count : Nat) : Bool :=
  iteration_count == (squareIdx grid.length).countP fun c => getCell grid c.1 c.2 != ""

/-- The record-collecting loop of `check_win_or_not`: each cell holding the
human (resp. robot) symbol appends `rect_mapping_inv[(i, j)]` to that player's
record list; the lookup raises `KeyError` (here: `none`) because the keys of
`rect_mapping_inv` are the grid numbers, not the (row, col) pairs. -/
def collectRecords (grid : Board) (human robot : String) :
    List (Nat × Nat) → List PyVal → List PyVal → Option (List PyVal × List PyVal)
  | [], hs, rs => some (hs, rs)
  | (i, j) :: rest, hs, rs =>
    if getCell grid i j == human then
      match dictGet rect_mapping_inv (.p (i, j)) with
      | some pos => collectRecords grid human robot rest (hs ++ [pos]) rs
      | none => none
    else if getCell grid i j == robot then
      match dictGet rect_mapping_inv (.p (i, j)) with
      | some pos => collectRecords grid human robot rest hs (rs ++ [pos])
      | none => none
    else
      collectRecords grid human robot rest hs rs

/-- `check_win_or_not` of `run_simulation.py`; `none` models an uncaught
`KeyError` (from the record-collecting lookups, or from indexing
`winning_table` with a record tuple that is not one of its 8 keys). -/
def check_win_or_not (grid : Board) (human_symbol robot_symbol : String) :
    Option (Bool × Bool) :=
  match collectRecords grid human_symbol robot_symbol cellsIdx [] [] with
  | none => none
  | some (hs, rs) =>
    if rs.length < 3 ∧ hs.length < 3 then some (false, false)
    else if rs.length > 2 then
      match dictGet winning_table rs with
      | some v => some (false, v != 0)
      | none => none
    else if hs.length > 2 then
      match dictGet winning_table hs with
      | some v => some (v != 0, false)
      | none => none
    else
      match dictGet winning_table rs with
      | some rv =>
        match dictGet winning_table hs with
        | some hv => some (hv != 0, rv != 0)
        | none => none
      | none => none

/-- The decision taken by one human turn of `run_simulation_dobot`
(`run_simulation.py` lines 289-316). -/
inductive TurnOutcome where
  | accept (rect : Nat)
  | noMoveFound
  | countMismatch
  | wrongSymbol
  | insertionProblem
deriving DecidableEq

/-- The human-turn validation sequence of `run_simulation_dobot`: locate the
newly placed symbol through the ledger (`find_rect`), gate on the grid count,
then on placement correctness, with the distinct wrong-symbol rejection when
the robot symbol sits at the located cell. -/
def humanTurn (cache : Cache) (grid : Board) (human_symbol robot_symbol : String)
    (simulation_count : Nat) : TurnOutcome × Cache :=
  match find_rect grid human_symbol cache with
  | (none, cache1) => (.noMoveFound, cache1)
  | (some rect, cache1) =>
    if !(validate_grid_count grid simulation_count) then (.countMismatch, cache1)
    else if validate_symbol_insertion rect human_symbol grid then (.accept rect, cache1)
    else if validate_symbol_insertion rect robot_symbol grid then (.wrongSymbol, cache1)
    else (.insertionProblem, cache1)

/-- Results of a sequence of `find_rect` calls, threading the module cache. -/
def runCalls (cache : Cache) : List (Board × String) → List (Option Nat) × Cache
  | [] => ([], cache)
  | (g, s) :: rest =>
    let rc := find_rect g s cache
    let tail := runCalls rc.2 rest
    (rc.1 :: tail.1, tail.2)
end RunSim

/-- Cells of the observed grid that hold the sought symbol (case-insensitively)
and are not yet recorded in the ledger, in row-major scan order. -/
def newCells (grid : Board) (symbol : String) (cache : RunSim.Cache) :
    List (Nat × Nat) :=
  cellsIdx.filter fun c =>
    pyLower (getCell grid c.1 c.2) == pyLower symbol && (RunSim.cacheGet cache c).isNone

/-- A board reached from the empty board by the alternating legal moves
X(0,1), O(1,2), X(1,0), O(2,0), X(2,2); O is to move. -/
def bC2 : Board := [["","X",""],["X","","O"],["O","","X"]]

/--Plays each listed move in order, requiring the target cell to be empty. -/
def applyMoves (b : Board) : List ((Nat × Nat) × String) → Option Board
  | [] => some b
  | (c, s) :: rest =>
    if getCell b c.1 c.2 = "" then applyMoves (setCell b c.1 c.2 s) rest else none

/-! ### Theorems -/

/-! ### Elementary lemmas about cell access -/

theorem listSet_oob {α : Type} (l : List α) (n : Nat) (a : α)
    (h : l.length ≤ n) : l.set n a = l := by
  induction l generalizing n with
  | nil => rfl
  | cons x t ih =>
    cases n with
    | zero => simp at h
    | succ m =>
      simp only [List.set]
      simp only [List.length_cons, Nat.succ_le_succ_iff] at h
      rw [ih m h]

theorem listSet_getD_self {α : Type} (l : List α) (n : Nat) (d : α) :
    l.set n (l.getD n d) = l := by
  induction l generalizing n with
  | nil => rfl
  | cons x t ih =>
    cases n with
    | zero => simp [List.getD]
    | succ m =>
      simp only [List.set, List.getD_cons_succ]
      rw [ih m]

theorem setCell_setCell (b : Board) (i j : Nat) (v w : String) :
    setCell (setCell b i j v) i j w = setCell b i j w := by
  unfold setCell
  by_cases hi : i < b.length
  · have hgd : (b.set i ((b.getD i []).set j v)).getD i [] = (b.getD i []).set j v := by
      simp [List.getD, List.getElem?_set_self, hi]
    rw [hgd, List.set_set, List.set_set]
  · have hb : b.set i ((b.getD i []).set j v) = b := listSet_oob _ _ _ (Nat.le_of_not_lt hi)
    rw [hb]

theorem setCell_restore (b : Board) (i j : Nat) (h : getCell b i j = "") :
    setCell b i j "" = b := by
  unfold setCell
  unfold getCell at h
  rw [← h, listSet_getD_self, listSet_getD_self]

theorem setCell_cancel (b : Board) (i j : Nat) (sym : String)
    (h : getCell b i j = "") : setCell (setCell b i j sym) i j "" = b := by
  rw [setCell_setCell, setCell_restore b i j h]
namespace MiniMax

theorem searchLoop_eq (mm : Board → Bool → Int × Board)
    (hmm : ∀ b m, (mm b m).2 = b) (sym : String) (isMax : Bool) :
    ∀ (cells : List (Nat × Nat)) (b : Board) (best : Int),
      searchLoop mm sym isMax cells b best =
        ((if isMax then
            cfoldMax (fun c => getCell b c.1 c.2 == "")
              (fun c => (mm (setCell b c.1 c.2 sym) (!isMax)).1) cells best
          else
            cfoldMin (fun c => getCell b c.1 c.2 == "")
              (fun c => (mm (setCell b c.1 c.2 sym) (!isMax)).1) cells best), b) := by
  intro cells
  induction cells with
  | nil =>
    intro b best
    cases isMax <;> simp [searchLoop, cfoldMax, cfoldMin]
  | cons c rest ih =>
    intro b best
    obtain ⟨i, j⟩ := c
    by_cases hc : getCell b i j = ""
    · have hrestore : ∀ v : Bool, setCell (mm (setCell b i j sym) v).2 i j "" = b := by
        intro v
        rw [hmm]
        exact setCell_cancel b i j sym hc
      cases isMax <;>
        simp [searchLoop, hc, hrestore, ih, cfoldMax, cfoldMin]
    · cases isMax <;>
        simp [searchLoop, hc, ih, cfoldMax, cfoldMin]

theorem minimaxF_frame (ai human : String) :
    ∀ (fuel : Nat) (b : Board) (depth : Nat) (m : Bool),
      (minimaxF ai human fuel b depth m).2 = b := by
  intro fuel
  induction fuel with
  | zero => intro b depth m; rfl
  | succ f ih =>
    intro b depth m
    show (minimaxF ai human (f+1) b depth m).2 = b
    rw [minimaxF]
    have hloopT := searchLoop_eq (fun b' m' => minimaxF ai human f b' (depth+1) m')
      (fun b' m' => ih b' (depth+1) m') ai true cellsIdx b (-100)
    have hloopF := searchLoop_eq (fun b' m' => minimaxF ai human f b' (depth+1) m')
      (fun b' m' => ih b' (depth+1) m') human false cellsIdx b 100
    split
    · rfl
    · split
      · rfl
      · split
        · rfl
        · split
          · rw [hloopT]
          · rw [hloopF]

theorem minimax_frame (ai human : String) (b : Board) (depth : Nat) (m : Bool) :
    (minimax ai human b depth m).2 = b :=
  minimaxF_frame ai human 9 b depth m

theorem bestLoop_frame (ai human : String) :
    ∀ (cells : List (Nat × Nat)) (b : Board) (bs : Option Int)
      (bm : Option (Nat × Nat)), (bestLoop ai human cells b bs bm).2 = b := by
  intro cells
  induction cells with
  | nil => intro b bs bm; rfl
  | cons c rest ih =>
    intro b bs bm
    obtain ⟨i, j⟩ := c
    by_cases hc : getCell b i j == ""
    · have hrestore : setCell (minimax ai human (setCell b i j ai) 0 false).2 i j "" = b := by
        rw [minimax_frame]
        exact setCell_cancel b i j ai (by simpa using hc)
      by_cases hg : gtOpt (minimax ai human (setCell b i j ai) 0 false).1 bs
      · simp only [bestLoop, hc, if_true, hrestore, hg, ih]
      · simp only [bestLoop, hc, if_true, hrestore, hg, ih, Bool.false_eq_true, if_false]
    · simp only [bestLoop, hc, Bool.false_eq_true, if_false, ih]

theorem get_best_move_frame (ai human : String) (b : Board) :
    (get_best_move ai human b).2 = b :=
  bestLoop_frame ai human cellsIdx b none none
end MiniMax

/-! ### Comparison lemmas for the score folds -/

theorem le_cfoldMax_init (P : Nat × Nat → Bool) (f : Nat × Nat → Int) :
    ∀ (l : List (Nat × Nat)) (init : Int), init ≤ cfoldMax P f l init := by
  intro l
  induction l with
  | nil => intro init; simp [cfoldMax]
  | cons c t ih =>
    intro init
    simp only [cfoldMax, List.foldl_cons]
    by_cases hp : P c = true
    · simp only [hp, if_true]
      exact le_trans (le_max_right (f c) init) (ih (max (f c) init))
    · simp only [hp, if_false]
      exact ih init

theorem le_cfoldMax_elem (P : Nat × Nat → Bool) (f : Nat × Nat → Int) :
    ∀ (l : List (Nat × Nat)) (init : Int) (c : Nat × Nat),
      c ∈ l → P c = true → f c ≤ cfoldMax P f l init := by
  intro l
  induction l with
  | nil => intro init c hc; simp at hc
  | cons a t ih =>
    intro init c hc hp
    simp only [cfoldMax, List.foldl_cons]
    rcases List.mem_cons.mp hc with h | h
    · subst h
      simp only [hp, if_true]
      exact le_trans (le_max_left (f c) init) (le_cfoldMax_init P f t _)
    · by_cases hpa : P a = true <;> simp only [hpa, if_true, if_false] <;>
        exact ih _ c h hp

theorem cfoldMax_le (P : Nat × Nat → Bool) (f : Nat × Nat → Int) (K : Int) :
    ∀ (l : List (Nat × Nat)) (init : Int), init ≤ K →
      (∀ c ∈ l, P c = true → f c ≤ K) → cfoldMax P f l init ≤ K := by
  intro l
  induction l with
  | nil => intro init h0 _; simpa [cfoldMax] using h0
  | cons a t ih =>
    intro init h0 hf
    simp only [cfoldMax, List.foldl_cons]
    by_cases hpa : P a = true
    · simp only [hpa, if_true]
      exact ih _ (max_le (hf a (List.mem_cons_self a t) hpa) h0)
        (fun c hc hp => hf c (List.mem_cons_of_mem a hc) hp)
    · simp only [hpa, if_false]
      exact ih _ h0 (fun c hc hp => hf c (List.mem_cons_of_mem a hc) hp)

theorem cfoldMax_mono (P : Nat × Nat → Bool) (f g : Nat × Nat → Int) :
    ∀ (l : List (Nat × Nat)) (i1 i2 : Int), i1 ≤ i2 →
      (∀ c ∈ l, P c = true → f c ≤ g c) →
      cfoldMax P f l i1 ≤ cfoldMax P g l i2 := by
  intro l
  induction l with
  | nil => intro i1 i2 h0 _; simpa [cfoldMax] using h0
  | cons a t ih =>
    intro i1 i2 h0 hf
    simp only [cfoldMax, List.foldl_cons]
    by_cases hpa : P a = true
    · simp only [hpa, if_true]
      exact ih _ _ (max_le_max (hf a (List.mem_cons_self a t) hpa) h0)
        (fun c hc hp => hf c (List.mem_cons_of_mem a hc) hp)
    · simp only [hpa, if_false]
      exact ih _ _ h0 (fun c hc hp => hf c (List.mem_cons_of_mem a hc) hp)

theorem cfoldMin_le_init (P : Nat × Nat → Bool) (f : Nat × Nat → Int) :
    ∀ (l : List (Nat × Nat)) (init : Int), cfoldMin P f l init ≤ init := by
  intro l
  induction l with
  | nil => intro init; simp [cfoldMin]
  | cons c t ih =>
    intro init
    simp only [cfoldMin, List.foldl_cons]
    by_cases hp : P c = true
    · simp only [hp, if_true]
      exact le_trans (ih (min (f c) init)) (min_le_right (f c) init)
    · simp only [hp, if_false]
      exact ih init

theorem cfoldMin_le_elem (P : Nat × Nat → Bool) (f : Nat × Nat → Int) :
    ∀ (l : List (Nat × Nat)) (init : Int) (c : Nat × Nat),
      c ∈ l → P c = true → cfoldMin P f l init ≤ f c := by
  intro l
  induction l with
  | nil => intro init c hc; simp at hc
  | cons a t ih =>
    intro init c hc hp
    simp only [cfoldMin, List.foldl_cons]
    rcases List.mem_cons.mp hc with h | h
    · subst h
      simp only [hp, if_true]
      exact le_trans (cfoldMin_le_init P f t _) (min_le_left (f c) init)
    · by_cases hpa : P a = true <;> simp only [hpa, if_true, if_false] <;>
        exact ih _ c h hp

theorem cfoldMin_ge (P : Nat × Nat → Bool) (f : Nat × Nat → Int) (K : Int) :
    ∀ (l : List (Nat × Nat)) (init : Int), K ≤ init →
      (∀ c ∈ l, P c = true → K ≤ f c) → K ≤ cfoldMin P f l init := by
  intro l
  induction l with
  | nil => intro init h0 _; simpa [cfoldMin] using h0
  | cons a t ih =>
    intro init h0 hf
    simp only [cfoldMin, List.foldl_cons]
    by_cases hpa : P a = true
    · simp only [hpa, if_true]
      exact ih _ (le_min (hf a (List.mem_cons_self a t) hpa) h0)
        (fun c hc hp => hf c (List.mem_cons_of_mem a hc) hp)
    · simp only [hpa, if_false]
      exact ih _ h0 (fun c hc hp => hf c (List.mem_cons_of_mem a hc) hp)

theorem cfoldMin_mono (P : Nat × Nat → Bool) (f g : Nat × Nat → Int) :
    ∀ (l : List (Nat × Nat)) (i1 i2 : Int), i1 ≤ i2 →
      (∀ c ∈ l, P c = true → f c ≤ g c) →
      cfoldMin P f l i1 ≤ cfoldMin P g l i2 := by
  intro l
  induction l with
  | nil => intro i1 i2 h0 _; simpa [cfoldMin] using h0
  | cons a t ih =>
    intro i1 i2 h0 hf
    simp only [cfoldMin, List.foldl_cons]
    by_cases hpa : P a = true
    · simp only [hpa, if_true]
      exact ih _ _ (min_le_min (hf a (List.mem_cons_self a t) hpa) h0)
        (fun c hc hp => hf c (List.mem_cons_of_mem a hc) hp)
    · simp only [hpa, if_false]
      exact ih _ _ h0 (fun c hc hp => hf c (List.mem_cons_of_mem a hc) hp)
namespace MiniMax

/-- Closed form of one unfolding of `minimaxF` with the search loops replaced
by their score folds (the board component is restored, by `searchLoop_eq`). -/
theorem minimaxF_succ (ai human : String) (f : Nat) (b : Board) (d : Nat)
    (m : Bool) :
    minimaxF ai human (f+1) b d m =
      (if check_winner b == some ai then (10 - (d : Int))
       else if check_winner b == some human then ((d : Int) - 10)
       else if is_full b then 0
       else if m then
         cfoldMax (fun c => getCell b c.1 c.2 == "")
           (fun c => (minimaxF ai human f (setCell b c.1 c.2 ai) (d+1) false).1)
           cellsIdx (-100)
       else
         cfoldMin (fun c => getCell b c.1 c.2 == "")
           (fun c => (minimaxF ai human f (setCell b c.1 c.2 human) (d+1) true).1)
           cellsIdx 100, b) := by
  rw [minimaxF]
  have hframe : ∀ b' m', (minimaxF ai human f b' (d+1) m').2 = b' :=
    fun b' m' => minimaxF_frame ai human f b' (d+1) m'
  by_cases h1 : check_winner b == some ai
  · simp [h1]
  · by_cases h2 : check_winner b == some human
    · simp [h1, h2]
    · by_cases h3 : is_full b
      · simp [h1, h2, h3]
      · cases m <;>
          simp [h1, h2, h3, searchLoop_eq _ hframe, Prod.ext_iff]
end MiniMax

/-- Score component of one unfolding of `minimaxF`. -/
theorem minimaxF_succ_score (ai human : String) (f : Nat) (b : Board) (d : Nat)
    (m : Bool) :
    (MiniMax.minimaxF ai human (f+1) b d m).1 =
      (if (MiniMax.check_winner b == some ai) = true then 10 - (d : Int)
       else if (MiniMax.check_winner b == some human) = true then (d : Int) - 10
       else if MiniMax.is_full b = true then 0
       else if m = true then
         cfoldMax (fun c => getCell b c.1 c.2 == "")
           (fun c => (MiniMax.minimaxF ai human f (setCell b c.1 c.2 ai) (d+1) false).1)
           cellsIdx (-100)
       else
         cfoldMin (fun c => getCell b c.1 c.2 == "")
           (fun c => (MiniMax.minimaxF ai human f (setCell b c.1 c.2 human) (d+1) true).1)
           cellsIdx 100) := by
  rw [MiniMax.minimaxF_succ]

/-- Scores produced by `minimaxF` stay in `[-100, 100]` as long as depth plus
fuel stays within the real game horizon. -/
theorem minimaxF_bounds (ai human : String) :
    ∀ (fuel : Nat) (b : Board) (d : Nat) (m : Bool), d + fuel ≤ 10 →
      -100 ≤ (MiniMax.minimaxF ai human fuel b d m).1 ∧
        (MiniMax.minimaxF ai human fuel b d m).1 ≤ 100 := by
  intro fuel
  induction fuel with
  | zero =>
    intro b d m _
    constructor <;> simp [MiniMax.minimaxF]
  | succ f ih =>
    intro b d m hdf
    rw [minimaxF_succ_score]
    by_cases h1 : (MiniMax.check_winner b == some ai) = true
    · rw [if_pos h1]
      constructor <;> omega
    · rw [if_neg h1]
      by_cases h2 : (MiniMax.check_winner b == some human) = true
      · rw [if_pos h2]
        constructor <;> omega
      · rw [if_neg h2]
        by_cases h3 : MiniMax.is_full b = true
        · rw [if_pos h3]
          constructor <;> omega
        · rw [if_neg h3]
          cases m
          · rw [if_neg Bool.false_ne_true]
            constructor
            · exact cfoldMin_ge _ _ _ _ _ (by omega)
                (fun c _ _ => (ih (setCell b c.1 c.2 human) (d+1) true (by omega)).1)
            · exact le_trans (cfoldMin_le_init _ _ _ _) (by omega)
          · rw [if_pos rfl]
            constructor
            · exact le_trans (by omega) (le_cfoldMax_init _ _ _ _)
            · exact cfoldMax_le _ _ _ _ _ (by omega)
                (fun c _ _ => (ih (setCell b c.1 c.2 ai) (d+1) false (by omega)).2)

theorem minimaxF_le_ubF (ai human : String) (strat : Board → Nat × Nat) :
    ∀ (fuel : Nat) (b : Board) (d : Nat) (m : Bool),
      (MiniMax.minimaxF ai human fuel b d m).1 ≤ ubF ai human strat fuel b d m := by
  intro fuel
  induction fuel with
  | zero => intro b d m; simp [MiniMax.minimaxF, ubF]
  | succ f ih =>
    intro b d m
    rw [minimaxF_succ_score, ubF]
    by_cases h1 : (MiniMax.check_winner b == some ai) = true
    · rw [if_pos h1, if_pos h1]
    · rw [if_neg h1, if_neg h1]
      by_cases h2 : (MiniMax.check_winner b == some human) = true
      · rw [if_pos h2, if_pos h2]
      · rw [if_neg h2, if_neg h2]
        by_cases h3 : MiniMax.is_full b = true
        · rw [if_pos h3, if_pos h3]
        · rw [if_neg h3, if_neg h3]
          cases m
          · rw [if_neg Bool.false_ne_true, if_neg Bool.false_ne_true]
            by_cases h4 : (cellsIdx.contains (strat b)
                && getCell b (strat b).1 (strat b).2 == "") = true
            · rw [if_pos h4]
              have hmem : strat b ∈ cellsIdx :=
                List.elem_iff.mp ((Bool.and_eq_true _ _).mp h4).1
              have hemp : (getCell b (strat b).1 (strat b).2 == "") = true :=
                ((Bool.and_eq_true _ _).mp h4).2
              exact le_trans
                (cfoldMin_le_elem _ _ cellsIdx 100 (strat b) hmem hemp)
                (ih (setCell b (strat b).1 (strat b).2 human) (d+1) true)
            · rw [if_neg h4]
              exact cfoldMin_le_init _ _ _ _
          · rw [if_pos rfl, if_pos rfl]
            exact cfoldMax_mono _ _ _ cellsIdx (-100) (-100) le_rfl
              (fun c _ _ => ih (setCell b c.1 c.2 ai) (d+1) false)

theorem lbF_le_minimaxF (ai human : String) (strat : Board → Nat × Nat) :
    ∀ (fuel : Nat) (b : Board) (d : Nat) (m : Bool),
      lbF ai human strat fuel b d m ≤ (MiniMax.minimaxF ai human fuel b d m).1 := by
  intro fuel
  induction fuel with
  | zero => intro b d m; simp [MiniMax.minimaxF, lbF]
  | succ f ih =>
    intro b d m
    rw [minimaxF_succ_score, lbF]
    by_cases h1 : (MiniMax.check_winner b == some ai) = true
    · rw [if_pos h1, if_pos h1]
    · rw [if_neg h1, if_neg h1]
      by_cases h2 : (MiniMax.check_winner b == some human) = true
      · rw [if_pos h2, if_pos h2]
      · rw [if_neg h2, if_neg h2]
        by_cases h3 : MiniMax.is_full b = true
        · rw [if_pos h3, if_pos h3]
        · rw [if_neg h3, if_neg h3]
          cases m
          · rw [if_neg Bool.false_ne_true, if_neg Bool.false_ne_true]
            exact cfoldMin_mono _ _ _ cellsIdx 100 100 le_rfl
              (fun c _ _ => ih (setCell b c.1 c.2 human) (d+1) true)
          · rw [if_pos rfl, if_pos rfl]
            by_cases h4 : (cellsIdx.contains (strat b)
                && getCell b (strat b).1 (strat b).2 == "") = true
            · rw [if_pos h4]
              have hmem : strat b ∈ cellsIdx :=
                List.elem_iff.mp ((Bool.and_eq_true _ _).mp h4).1
              have hemp : (getCell b (strat b).1 (strat b).2 == "") = true :=
                ((Bool.and_eq_true _ _).mp h4).2
              exact le_trans
                (ih (setCell b (strat b).1 (strat b).2 ai) (d+1) false)
                (le_cfoldMax_elem _ _ cellsIdx (-100) (strat b) hmem hemp)
            · rw [if_neg h4]
              exact le_cfoldMax_init _ _ _ _

set_option maxRecDepth 1000000 in
theorem ubVal_01 :
    ubF "O" "X" (tabStrat xReplyTable) 9 (setCell emptyBd 0 1 "O") 0 false ≤ 0 := by
  decide!

set_option maxRecDepth 1000000 in
theorem ubVal_02 :
    ubF "O" "X" (tabStrat xReplyTable) 9 (setCell emptyBd 0 2 "O") 0 false ≤ 0 := by
  decide!

set_option maxRecDepth 1000000 in
theorem ubVal_10 :
    ubF "O" "X" (tabStrat xReplyTable) 9 (setCell emptyBd 1 0 "O") 0 false ≤ 0 := by
  decide!

set_option maxRecDepth 1000000 in
theorem ubVal_11 :
    ubF "O" "X" (tabStrat xReplyTable) 9 (setCell emptyBd 1 1 "O") 0 false ≤ 0 := by
  decide!

set_option maxRecDepth 1000000 in
theorem ubVal_12 :
    ubF "O" "X" (tabStrat xReplyTable) 9 (setCell emptyBd 1 2 "O") 0 false ≤ 0 := by
  decide!

set_option maxRecDepth 1000000 in
theorem ubVal_20 :
    ubF "O" "X" (tabStrat xReplyTable) 9 (setCell emptyBd 2 0 "O") 0 false ≤ 0 := by
  decide!

set_option maxRecDepth 1000000 in
theorem ubVal_21 :
    ubF "O" "X" (tabStrat xReplyTable) 9 (setCell emptyBd 2 1 "O") 0 false ≤ 0 := by
  decide!

set_option maxRecDepth 1000000 in
theorem ubVal_22 :
    ubF "O" "X" (tabStrat xReplyTable) 9 (setCell emptyBd 2 2 "O") 0 false ≤ 0 := by
  decide!

set_option maxRecDepth 1000000 in
theorem lbVal_00 :
    0 ≤ lbF "O" "X" (tabStrat oReplyTable) 9 (setCell emptyBd 0 0 "O") 0 false := by
  decide!

theorem bestLoop_eq_fold (ai human : String) :
    ∀ (cells : List (Nat × Nat)) (b : Board) (bs : Option Int)
      (bm : Option (Nat × Nat)),
      MiniMax.bestLoop ai human cells b bs bm =
        ((bestFold ai human b cells (bs, bm)).2, b) := by
  intro cells
  induction cells with
  | nil => intro b bs bm; rfl
  | cons c rest ih =>
    intro b bs bm
    obtain ⟨i, j⟩ := c
    by_cases hc : getCell b i j = ""
    · have hrestore : setCell (MiniMax.minimax ai human (setCell b i j ai) 0 false).2 i j "" = b := by
        rw [MiniMax.minimax_frame]
        exact setCell_cancel b i j ai hc
      by_cases hg :
          MiniMax.gtOpt ((MiniMax.minimax ai human (setCell b i j ai) 0 false).1) bs = true
      · simp [MiniMax.bestLoop, hc, hrestore, hg, ih, bestFold, moveScore]
      · simp [MiniMax.bestLoop, hc, hrestore, hg, ih, bestFold, moveScore]
    · simp [MiniMax.bestLoop, hc, ih, bestFold]

theorem bestFold_grows (ai human : String) (b : Board) :
    ∀ (cells : List (Nat × Nat)) (st : Option Int × Option (Nat × Nat)) (s : Int),
      st.1 = some s →
      ∃ s', (bestFold ai human b cells st).1 = some s' ∧ s ≤ s' := by
  intro cells
  induction cells with
  | nil => intro st s hs; exact ⟨s, hs, le_rfl⟩
  | cons c rest ih =>
    intro st s hs
    simp only [bestFold, List.foldl_cons]
    by_cases hc : (getCell b c.1 c.2 == "") = true
    · simp only [hc, if_true]
      by_cases hg : MiniMax.gtOpt (moveScore ai human b c) st.1 = true
      · simp only [hg, if_true]
        obtain ⟨s', hs', hle⟩ :=
          ih (some (moveScore ai human b c), some c) (moveScore ai human b c) rfl
        refine ⟨s', hs', le_trans (le_of_lt ?_) hle⟩
        rw [hs] at hg
        simpa [MiniMax.gtOpt] using hg
      · simp only [hg, if_false]
        exact ih st s hs
    · simp only [hc, if_false]
      exact ih st s hs

theorem bestFold_ge_elem (ai human : String) (b : Board) :
    ∀ (cells : List (Nat × Nat)) (st : Option Int × Option (Nat × Nat))
      (c : Nat × Nat), c ∈ cells → getCell b c.1 c.2 = "" →
      ∃ s', (bestFold ai human b cells st).1 = some s' ∧
        moveScore ai human b c ≤ s' := by
  intro cells
  induction cells with
  | nil => intro st c hc; simp at hc
  | cons a rest ih =>
    intro st c hc hemp
    rcases List.mem_cons.mp hc with h | h
    · subst h
      have hcB : (getCell b c.1 c.2 == "") = true := by simp [hemp]
      simp only [bestFold, List.foldl_cons, hcB, if_true]
      by_cases hg : MiniMax.gtOpt (moveScore ai human b c) st.1 = true
      · simp only [hg, if_true]
        exact bestFold_grows ai human b rest _ _ rfl
      · simp only [hg, if_false]
        cases hst : st.1 with
        | none => simp [MiniMax.gtOpt, hst] at hg
        | some s0 =>
          have hle : moveScore ai human b c ≤ s0 := by
            rw [hst] at hg
            simpa [MiniMax.gtOpt] using hg
          obtain ⟨s', hs', hgrow⟩ := bestFold_grows ai human b rest st s0 hst
          exact ⟨s', hs', le_trans hle hgrow⟩
    · simp only [bestFold, List.foldl_cons]
      exact ih _ c h hemp

theorem bestFold_inv (ai human : String) (b : Board) :
    ∀ (cells : List (Nat × Nat)) (st : Option Int × Option (Nat × Nat)),
      (st.1 = none ∧ st.2 = none) ∨
        (∃ s m, st.1 = some s ∧ st.2 = some m ∧ moveScore ai human b m = s) →
      ((bestFold ai human b cells st).1 = none ∧
          (bestFold ai human b cells st).2 = none) ∨
        (∃ s m, (bestFold ai human b cells st).1 = some s ∧
          (bestFold ai human b cells st).2 = some m ∧
          moveScore ai human b m = s) := by
  intro cells
  induction cells with
  | nil => intro st h; exact h
  | cons a rest ih =>
    intro st h
    simp only [bestFold, List.foldl_cons]
    by_cases hc : (getCell b a.1 a.2 == "") = true
    · simp only [hc, if_true]
      by_cases hg : MiniMax.gtOpt (moveScore ai human b a) st.1 = true
      · simp only [hg, if_true]
        exact ih _ (Or.inr ⟨moveScore ai human b a, a, rfl, rfl, rfl⟩)
      · simp only [hg, if_false]
        exact ih st h
    · simp only [hc, if_false]
      exact ih st h

/-- Moves that the fold never selects stay unselected: if the running state
already holds a score at least as large as every remaining candidate score of
the target cell, the target is never installed. -/
theorem bestFold_keeps (ai human : String) (b : Board) :
    ∀ (cells : List (Nat × Nat)) (s0 : Int) (m0 : Nat × Nat),
      (∀ c ∈ cells, getCell b c.1 c.2 = "" → moveScore ai human b c ≤ s0) →
      bestFold ai human b cells (some s0, some m0) = (some s0, some m0) := by
  intro cells
  induction cells with
  | nil => intro s0 m0 _; rfl
  | cons a rest ih =>
    intro s0 m0 hle
    simp only [bestFold, List.foldl_cons]
    by_cases hc : (getCell b a.1 a.2 == "") = true
    · have hg : MiniMax.gtOpt (moveScore ai human b a) (some s0) = false := by
        simp [MiniMax.gtOpt]
        exact hle a (List.mem_cons_self a rest) (by simpa using hc)
      simp only [hc, if_true, hg, if_false]
      exact ih s0 m0 (fun c hcr hce => hle c (List.mem_cons_of_mem a hcr) hce)
    · simp only [hc, if_false]
      exact ih s0 m0 (fun c hcr hce => hle c (List.mem_cons_of_mem a hcr) hce)

theorem moveScore_eq (ai human : String) (b : Board) (i j : Nat) :
    moveScore ai human b (i, j) =
      (MiniMax.minimaxF ai human 9 (setCell b i j ai) 0 false).1 := rfl

theorem scoreEmpty_00_ge : 0 ≤ moveScore "O" "X" emptyBd (0, 0) := by
  rw [moveScore_eq]
  exact le_trans lbVal_00
    (lbF_le_minimaxF "O" "X" (tabStrat oReplyTable) 9 (setCell emptyBd 0 0 "O") 0 false)

theorem scoreEmpty_rest :
    ∀ c ∈ ([(0,1),(0,2),(1,0),(1,1),(1,2),(2,0),(2,1),(2,2)] : List (Nat × Nat)),
      moveScore "O" "X" emptyBd c ≤ 0 := by
  intro c hc
  fin_cases hc
  · rw [moveScore_eq]
    exact le_trans
      (minimaxF_le_ubF "O" "X" (tabStrat xReplyTable) 9 (setCell emptyBd 0 1 "O") 0 false)
      ubVal_01
  · rw [moveScore_eq]
    exact le_trans
      (minimaxF_le_ubF "O" "X" (tabStrat xReplyTable) 9 (setCell emptyBd 0 2 "O") 0 false)
      ubVal_02
  · rw [moveScore_eq]
    exact le_trans
      (minimaxF_le_ubF "O" "X" (tabStrat xReplyTable) 9 (setCell emptyBd 1 0 "O") 0 false)
      ubVal_10
  · rw [moveScore_eq]
    exact le_trans
      (minimaxF_le_ubF "O" "X" (tabStrat xReplyTable) 9 (setCell emptyBd 1 1 "O") 0 false)
      ubVal_11
  · rw [moveScore_eq]
    exact le_trans
      (minimaxF_le_ubF "O" "X" (tabStrat xReplyTable) 9 (setCell emptyBd 1 2 "O") 0 false)
      ubVal_12
  · rw [moveScore_eq]
    exact le_trans
      (minimaxF_le_ubF "O" "X" (tabStrat xReplyTable) 9 (setCell emptyBd 2 0 "O") 0 false)
      ubVal_20
  · rw [moveScore_eq]
    exact le_trans
      (minimaxF_le_ubF "O" "X" (tabStrat xReplyTable) 9 (setCell emptyBd 2 1 "O") 0 false)
      ubVal_21
  · rw [moveScore_eq]
    exact le_trans
      (minimaxF_le_ubF "O" "X" (tabStrat xReplyTable) 9 (setCell emptyBd 2 2 "O") 0 false)
      ubVal_22

theorem bestFold_cons (ai human : String) (b : Board) (c : Nat × Nat)
    (rest : List (Nat × Nat)) (st : Option Int × Option (Nat × Nat)) :
    bestFold ai human b (c :: rest) st =
      bestFold ai human b rest
        (if getCell b c.1 c.2 == "" then
           if MiniMax.gtOpt (moveScore ai human b c) st.1 then
             (some (moveScore ai human b c), some c)
           else st
         else st) := rfl

theorem gtOpt_none (s : Int) : MiniMax.gtOpt s none = true := rfl

theorem bestFold_cons_empty_none (ai human : String) (b : Board) (c : Nat × Nat)
    (rest : List (Nat × Nat)) (hc : (getCell b c.1 c.2 == "") = true) :
    bestFold ai human b (c :: rest) (none, none) =
      bestFold ai human b rest (some (moveScore ai human b c), some c) := by
  rw [bestFold_cons, if_pos hc]
  dsimp only
  rw [if_pos (gtOpt_none (moveScore ai human b c))]

/-- On the empty board every opening scores a draw, so the strict-improvement
scan keeps the first cell it examined: `(0, 0)`. -/
theorem getBestMove_empty : (MiniMax.get_best_move "O" "X" emptyBd).1 = some (0, 0) := by
  have hrest : ∀ c ∈ ([(0,1),(0,2),(1,0),(1,1),(1,2),(2,0),(2,1),(2,2)] : List (Nat × Nat)),
      getCell emptyBd c.1 c.2 = "" →
      moveScore "O" "X" emptyBd c ≤ moveScore "O" "X" emptyBd (0, 0) :=
    fun c hc _ => le_trans (scoreEmpty_rest c hc) scoreEmpty_00_ge
  have h2 := bestFold_keeps "O" "X" emptyBd
    [(0,1),(0,2),(1,0),(1,1),(1,2),(2,0),(2,1),(2,2)]
    (moveScore "O" "X" emptyBd (0, 0)) (0, 0) hrest
  show (MiniMax.bestLoop "O" "X" cellsIdx emptyBd none none).1 = some (0, 0)
  rw [bestLoop_eq_fold,
    show cellsIdx = ((0, 0) : Nat × Nat) ::
      [(0,1),(0,2),(1,0),(1,1),(1,2),(2,0),(2,1),(2,2)] from rfl,
    bestFold_cons_empty_none "O" "X" emptyBd (0, 0) _ rfl, h2]

/-! ### Lower-casing preserves whitespace -/

theorem isPySpace_pyLowerChar (c : Char) : isPySpace (pyLowerChar c) = isPySpace c := by
  unfold pyLowerChar
  by_cases h1 : (c == 'A') = true
  · rw [if_pos h1, eq_of_beq h1]; decide
  rw [if_neg h1]
  by_cases h2 : (c == 'B') = true
  · rw [if_pos h2, eq_of_beq h2]; decide
  rw [if_neg h2]
  by_cases h3 : (c == 'C') = true
  · rw [if_pos h3, eq_of_beq h3]; decide
  rw [if_neg h3]
  by_cases h4 : (c == 'D') = true
  · rw [if_pos h4, eq_of_beq h4]; decide
  rw [if_neg h4]
  by_cases h5 : (c == 'E') = true
  · rw [if_pos h5, eq_of_beq h5]; decide
  rw [if_neg h5]
  by_cases h6 : (c == 'F') = true
  · rw [if_pos h6, eq_of_beq h6]; decide
  rw [if_neg h6]
  by_cases h7 : (c == 'G') = true
  · rw [if_pos h7, eq_of_beq h7]; decide
  rw [if_neg h7]
  by_cases h8 : (c == 'H') = true
  · rw [if_pos h8, eq_of_beq h8]; decide
  rw [if_neg h8]
  by_cases h9 : (c == 'I') = true
  · rw [if_pos h9, eq_of_beq h9]; decide
  rw [if_neg h9]
  by_cases h10 : (c == 'J') = true
  · rw [if_pos h10, eq_of_beq h10]; decide
  rw [if_neg h10]
  by_cases h11 : (c == 'K') = true
  · rw [if_pos h11, eq_of_beq h11]; decide
  rw [if_neg h11]
  by_cases h12 : (c == 'L') = true
  · rw [if_pos h12, eq_of_beq h12]; decide
  rw [if_neg h12]
  by_cases h13 : (c == 'M') = true
  · rw [if_pos h13, eq_of_beq h13]; decide
  rw [if_neg h13]
  by_cases h14 : (c == 'N') = true
  · rw [if_pos h14, eq_of_beq h14]; decide
  rw [if_neg h14]
  by_cases h15 : (c == 'O') = true
  · rw [if_pos h15, eq_of_beq h15]; decide
  rw [if_neg h15]
  by_cases h16 : (c == 'P') = true
  · rw [if_pos h16, eq_of_beq h16]; decide
  rw [if_neg h16]
  by_cases h17 : (c == 'Q') = true
  · rw [if_pos h17, eq_of_beq h17]; decide
  rw [if_neg h17]
  by_cases h18 : (c == 'R') = true
  · rw [if_pos h18, eq_of_beq h18]; decide
  rw [if_neg h18]
  by_cases h19 : (c == 'S') = true
  · rw [if_pos h19, eq_of_beq h19]; decide
  rw [if_neg h19]
  by_cases h20 : (c == 'T') = true
  · rw [if_pos h20, eq_of_beq h20]; decide
  rw [if_neg h20]
  by_cases h21 : (c == 'U') = true
  · rw [if_pos h21, eq_of_beq h21]; decide
  rw [if_neg h21]
  by_cases h22 : (c == 'V') = true
  · rw [if_pos h22, eq_of_beq h22]; decide
  rw [if_neg h22]
  by_cases h23 : (c == 'W') = true
  · rw [if_pos h23, eq_of_beq h23]; decide
  rw [if_neg h23]
  by_cases h24 : (c == 'X') = true
  · rw [if_pos h24, eq_of_beq h24]; decide
  rw [if_neg h24]
  by_cases h25 : (c == 'Y') = true
  · rw [if_pos h25, eq_of_beq h25]; decide
  rw [if_neg h25]
  by_cases h26 : (c == 'Z') = true
  · rw [if_pos h26, eq_of_beq h26]; decide
  rw [if_neg h26]

theorem all_nospace_of_map_eq :
    ∀ (l1 l2 : List Char), l1.map pyLowerChar = l2.map pyLowerChar →
      l2.all (fun c => !isPySpace c) = true →
      l1.all (fun c => !isPySpace c) = true := by
  intro l1
  induction l1 with
  | nil => intro l2 _ _; rfl
  | cons a t ih =>
    intro l2 hmap hall
    cases l2 with
    | nil => simp at hmap
    | cons b t2 =>
      simp only [List.map_cons, List.cons.injEq] at hmap
      obtain ⟨hab, ht⟩ := hmap
      simp only [List.all_cons, Bool.and_eq_true] at hall ⊢
      constructor
      · have hsp : isPySpace a = isPySpace b := by
          rw [← isPySpace_pyLowerChar a, ← isPySpace_pyLowerChar b, hab]
        rw [hsp]
        exact hall.1
      · exact ih t2 ht hall.2

theorem dropWhile_eq_self_of_all (p : Char → Bool) :
    ∀ l : List Char, l.all (fun c => !p c) = true → l.dropWhile p = l := by
  intro l hl
  cases l with
  | nil => rfl
  | cons a t =>
    simp only [List.all_cons, Bool.and_eq_true] at hl
    have hpa : p a = false := by simpa using hl.1
    simp [List.dropWhile_cons, hpa]

theorem pyStrip_eq_self_of_all (s : String)
    (h : s.data.all (fun c => !isPySpace c) = true) : pyStrip s = s := by
  unfold pyStrip
  rw [dropWhile_eq_self_of_all _ _ h]
  have hrev : s.data.reverse.all (fun c => !isPySpace c) = true := by
    simpa [List.all_reverse] using h
  rw [dropWhile_eq_self_of_all _ _ hrev, List.reverse_reverse]

/-- Whitespace-freeness transfers backwards along equal lower-casings. -/
theorem pyStrip_eq_self_of_lower_eq (s t : String)
    (hmap : pyLower s = pyLower t)
    (ht : t.data.all (fun c => !isPySpace c) = true) : pyStrip s = s := by
  have hd : s.data.map pyLowerChar = t.data.map pyLowerChar :=
    congrArg String.data hmap
  exact pyStrip_eq_self_of_all s (all_nospace_of_map_eq s.data t.data hd ht)
namespace RunSim

/-! ### Soundness of the new-cell locator -/

theorem find_rect_loop_sound (grid : Board) (symbol : String) :
    ∀ (cells : List (Nat × Nat)) (rect : Option Nat) (cache : Cache) (r : Nat),
      (find_rect_loop grid symbol cells rect cache).1 = some r →
      rect = some r ∨ ∃ c ∈ cells, dictGet rectangle_mapping c = some r ∧
        (pyLower (getCell grid c.1 c.2) == pyLower symbol) = true := by
  intro cells
  induction cells with
  | nil => intro rect cache r h; exact Or.inl h
  | cons a rest ih =>
    intro rect cache r h
    obtain ⟨i, j⟩ := a
    by_cases hcond : (pyLower (getCell grid i j) == pyLower symbol &&
        (cacheGet cache (i, j)).isNone) = true
    · rw [find_rect_loop, if_pos hcond] at h
      rcases ih _ _ r h with h1 | ⟨c, hc, hmap, hsym⟩
      · exact Or.inr ⟨(i, j), List.mem_cons_self _ _, h1,
          ((Bool.and_eq_true _ _).mp hcond).1⟩
      · exact Or.inr ⟨c, List.mem_cons_of_mem _ hc, hmap, hsym⟩
    · rw [find_rect_loop, if_neg hcond] at h
      rcases ih _ _ r h with h1 | ⟨c, hc, hmap, hsym⟩
      · exact Or.inl h1
      · exact Or.inr ⟨c, List.mem_cons_of_mem _ hc, hmap, hsym⟩

theorem find_rect_sound (grid : Board) (symbol : String) (cache : Cache) (r : Nat)
    (h : (find_rect grid symbol cache).1 = some r) :
    ∃ c ∈ squareIdx grid.length, dictGet rectangle_mapping c = some r ∧
      (pyLower (getCell grid c.1 c.2) == pyLower symbol) = true := by
  rcases find_rect_loop_sound grid symbol (squareIdx grid.length) none cache r h with
    h1 | h2
  · cases h1
  · exact h2

theorem rect_inv_of_mapping (c : Nat × Nat) (r : Nat)
    (h : dictGet rectangle_mapping c = some r) :
    dictGet rect_mapping_inv (.n r) = some (.p c) := by
  unfold dictGet at h
  obtain ⟨e, he, hev⟩ := Option.map_eq_some'.mp h
  have hmem := List.mem_of_find?_eq_some he
  have hpred := List.find?_some he
  fin_cases hmem <;>
    (simp only at hpred hev; rw [← eq_of_beq hpred, ← hev]; rfl)

theorem mapping_inj (c1 c2 : Nat × Nat) (r : Nat)
    (h1 : dictGet rectangle_mapping c1 = some r)
    (h2 : dictGet rectangle_mapping c2 = some r) : c1 = c2 := by
  have e1 := rect_inv_of_mapping c1 r h1
  have e2 := rect_inv_of_mapping c2 r h2
  rw [e1] at e2
  cases e2
  rfl

/-! ### Ledger lemmas -/

theorem cacheGet_cons_ne (cache : Cache) (k2 k : Nat × Nat) (v : String)
    (h : k2 ≠ k) : cacheGet ((k2, v) :: cache) k = cacheGet cache k := by
  unfold cacheGet dictGet
  rw [List.find?_cons_of_neg]
  simpa using h

theorem cacheGet_cons_mono (cache : Cache) (k2 k : Nat × Nat) (v : String)
    (h : cacheGet cache k ≠ none) : cacheGet ((k2, v) :: cache) k ≠ none := by
  by_cases hk : k2 = k
  · subst hk
    unfold cacheGet dictGet
    rw [List.find?_cons_of_pos]
    · simp
    · simp
  · rw [cacheGet_cons_ne cache k2 k v hk]
    exact h

theorem find_rect_loop_cache_mono (grid : Board) (symbol : String) :
    ∀ (cells : List (Nat × Nat)) (rect : Option Nat) (cache : Cache)
      (k : Nat × Nat), cacheGet cache k ≠ none →
      cacheGet (find_rect_loop grid symbol cells rect cache).2 k ≠ none := by
  intro cells
  induction cells with
  | nil => intro rect cache k h; exact h
  | cons a rest ih =>
    intro rect cache k h
    obtain ⟨i, j⟩ := a
    by_cases hcond : (pyLower (getCell grid i j) == pyLower symbol &&
        (cacheGet cache (i, j)).isNone) = true
    · rw [find_rect_loop, if_pos hcond]
      exact ih _ _ k (cacheGet_cons_mono cache (i, j) k symbol h)
    · rw [find_rect_loop, if_neg hcond]
      exact ih _ _ k h

theorem find_rect_loop_avoid (grid : Board) (symbol : String) (i j : Nat) :
    ∀ (cells : List (Nat × Nat)) (rect : Option Nat) (cache : Cache),
      cacheGet cache (i, j) ≠ none →
      (∀ r, rect = some r → dictGet rectangle_mapping (i, j) ≠ some r) →
      ∀ r, (find_rect_loop grid symbol cells rect cache).1 = some r →
        dictGet rectangle_mapping (i, j) ≠ some r := by
  intro cells
  induction cells with
  | nil => intro rect cache _ hinv r h; exact hinv r h
  | cons a rest ih =>
    intro rect cache hcache hinv r h
    obtain ⟨x, y⟩ := a
    by_cases hcond : (pyLower (getCell grid x y) == pyLower symbol &&
        (cacheGet cache (x, y)).isNone) = true
    · rw [find_rect_loop, if_pos hcond] at h
      refine ih _ _ (cacheGet_cons_mono cache (x, y) (i, j) symbol hcache) ?_ r h
      intro r' hr' hmapij
      have hxy : (x, y) ≠ (i, j) := by
        intro he
        have hnone : (cacheGet cache (x, y)).isNone = true :=
          ((Bool.and_eq_true _ _).mp hcond).2
        rw [he] at hnone
        exact hcache (Option.isNone_iff_eq_none.mp hnone)
      exact hxy (mapping_inj (x, y) (i, j) r' hr' hmapij)
    · rw [find_rect_loop, if_neg hcond] at h
      exact ih _ _ hcache hinv r h

theorem find_rect_avoid (grid : Board) (symbol : String) (i j : Nat)
    (cache : Cache) (hcache : cacheGet cache (i, j) ≠ none) :
    ∀ r, (find_rect grid symbol cache).1 = some r →
      dictGet rectangle_mapping (i, j) ≠ some r :=
  find_rect_loop_avoid grid symbol i j (squareIdx grid.length) none cache hcache
    (fun r hr => by cases hr)

theorem find_rect_cache_mono (grid : Board) (symbol : String) (cache : Cache)
    (k : Nat × Nat) (h : cacheGet cache k ≠ none) :
    cacheGet (find_rect grid symbol cache).2 k ≠ none :=
  find_rect_loop_cache_mono grid symbol (squareIdx grid.length) none cache k h

/-! ### Full characterization of one `find_rect` call -/

theorem foldl_const_last (f : Nat × Nat → Option Nat) :
    ∀ (l : List (Nat × Nat)) (init : Option Nat),
      l.foldl (fun _ c => f c) init =
        (match l.getLast? with
         | none => init
         | some c => f c) := by
  intro l
  induction l with
  | nil => intro init; rfl
  | cons a t ih =>
    intro init
    rw [List.foldl_cons, ih (f a)]
    cases t with
    | nil => rfl
    | cons b t2 =>
      rw [List.getLast?_cons_cons]
      obtain ⟨x, hx⟩ : ∃ x, (b :: t2).getLast? = some x :=
        Option.isSome_iff_exists.mp (by simp)
      rw [hx]

theorem find_rect_loop_spec (grid : Board) (symbol : String) :
    ∀ (cells : List (Nat × Nat)) (rect : Option Nat) (cache : Cache),
      cells.Nodup →
      find_rect_loop grid symbol cells rect cache =
        (((cells.filter fun c => pyLower (getCell grid c.1 c.2) == pyLower symbol &&
            (cacheGet cache c).isNone).foldl
              (fun _ c => dictGet rectangle_mapping c) rect),
         ((cells.filter fun c => pyLower (getCell grid c.1 c.2) == pyLower symbol &&
            (cacheGet cache c).isNone).reverse.map fun c => (c, symbol)) ++ cache) := by
  intro cells
  induction cells with
  | nil => intro rect cache _; rfl
  | cons a rest ih =>
    intro rect cache hnd
    have hnotmem : a ∉ rest := (List.nodup_cons.mp hnd).1
    have hndr : rest.Nodup := (List.nodup_cons.mp hnd).2
    have hfilter : ∀ cache2 : Cache,
        (∀ c ∈ rest, cacheGet cache2 c = cacheGet cache c) →
        (rest.filter fun c => pyLower (getCell grid c.1 c.2) == pyLower symbol &&
            (cacheGet cache2 c).isNone) =
          (rest.filter fun c => pyLower (getCell grid c.1 c.2) == pyLower symbol &&
            (cacheGet cache c).isNone) := by
      intro cache2 hsame
      exact List.filter_congr fun c hc => by rw [hsame c hc]
    obtain ⟨i, j⟩ := a
    by_cases hcond : (pyLower (getCell grid i j) == pyLower symbol &&
        (cacheGet cache (i, j)).isNone) = true
    · rw [find_rect_loop, if_pos hcond, ih _ _ hndr]
      rw [hfilter (((i, j), symbol) :: cache)
        (fun c hc => cacheGet_cons_ne cache (i, j) c symbol
          (fun he => hnotmem (he ▸ hc)))]
      simp [List.filter_cons, hcond]
    · rw [find_rect_loop, if_neg hcond, ih _ _ hndr]
      simp [List.filter_cons, hcond]
end RunSim

/-! ### Count bridging and the wrong-symbol gate -/

theorem gridCount_eq_rowSum (g : Board) (h3 : g.length = 3)
    (hr : ∀ r ∈ g, r.length = 3) :
    (squareIdx g.length).countP (fun c => getCell g c.1 c.2 != "") =
      (g.map fun row => row.countP fun cell => cell != "").sum := by
  cases g with
  | nil => simp at h3
  | cons r0 g1 =>
    cases g1 with
    | nil => simp at h3
    | cons r1 g2 =>
      cases g2 with
      | nil => simp at h3
      | cons r2 g3 =>
        cases g3 with
        | cons r3 g4 => simp at h3
        | nil =>
          have h0 : r0.length = 3 := hr r0 (by simp)
          have h1 : r1.length = 3 := hr r1 (by simp)
          have h2 : r2.length = 3 := hr r2 (by simp)
          obtain ⟨a0, a1, a2, ha⟩ : ∃ x y z, r0 = [x, y, z] := by
            cases r0 with
            | nil => simp at h0
            | cons x t0 =>
              cases t0 with
              | nil => simp at h0
              | cons y t1 =>
                cases t1 with
                | nil => simp at h0
                | cons z t2 =>
                  cases t2 with
                  | cons w t3 => simp at h0
                  | nil => exact ⟨x, y, z, rfl⟩
          obtain ⟨b0, b1, b2, hb⟩ : ∃ x y z, r1 = [x, y, z] := by
            cases r1 with
            | nil => simp at h1
            | cons x t0 =>
              cases t0 with
              | nil => simp at h1
              | cons y t1 =>
                cases t1 with
                | nil => simp at h1
                | cons z t2 =>
                  cases t2 with
                  | cons w t3 => simp at h1
                  | nil => exact ⟨x, y, z, rfl⟩
          obtain ⟨c0, c1, c2, hc⟩ : ∃ x y z, r2 = [x, y, z] := by
            cases r2 with
            | nil => simp at h2
            | cons x t0 =>
              cases t0 with
              | nil => simp at h2
              | cons y t1 =>
                cases t1 with
                | nil => simp at h2
                | cons z t2 =>
                  cases t2 with
                  | cons w t3 => simp at h2
                  | nil => exact ⟨x, y, z, rfl⟩
          subst ha hb hc
          simp only [show squareIdx (List.length ([[a0, a1, a2], [b0, b1, b2], [c0, c1, c2]] : Board)) =
              [(0,0),(0,1),(0,2),(1,0),(1,1),(1,2),(2,0),(2,1),(2,2)] from rfl,
            List.countP_cons, List.countP_nil, List.map_cons, List.map_nil,
            List.sum_cons, List.sum_nil,
            show getCell ([[a0, a1, a2], [b0, b1, b2], [c0, c1, c2]] : Board) 0 0 = a0 from rfl,
            show getCell ([[a0, a1, a2], [b0, b1, b2], [c0, c1, c2]] : Board) 0 1 = a1 from rfl,
            show getCell ([[a0, a1, a2], [b0, b1, b2], [c0, c1, c2]] : Board) 0 2 = a2 from rfl,
            show getCell ([[a0, a1, a2], [b0, b1, b2], [c0, c1, c2]] : Board) 1 0 = b0 from rfl,
            show getCell ([[a0, a1, a2], [b0, b1, b2], [c0, c1, c2]] : Board) 1 1 = b1 from rfl,
            show getCell ([[a0, a1, a2], [b0, b1, b2], [c0, c1, c2]] : Board) 1 2 = b2 from rfl,
            show getCell ([[a0, a1, a2], [b0, b1, b2], [c0, c1, c2]] : Board) 2 0 = c0 from rfl,
            show getCell ([[a0, a1, a2], [b0, b1, b2], [c0, c1, c2]] : Board) 2 1 = c1 from rfl,
            show getCell ([[a0, a1, a2], [b0, b1, b2], [c0, c1, c2]] : Board) 2 2 = c2 from rfl]
          omega

theorem humanTurn_not_wrongSymbol (cache : RunSim.Cache) (grid : Board)
    (h r : String) (n : Nat)
    (hh : h.data.all (fun c => !isPySpace c) = true) :
    (RunSim.humanTurn cache grid h r n).1 ≠ RunSim.TurnOutcome.wrongSymbol := by
  unfold RunSim.humanTurn
  cases hfr : RunSim.find_rect grid h cache with
  | mk rectOpt cache1 =>
    cases rectOpt with
    | none => simp
    | some rect =>
      obtain ⟨c, _, hmap, hsym⟩ :=
        RunSim.find_rect_sound grid h cache rect (by rw [hfr])
      have hinv := RunSim.rect_inv_of_mapping c rect hmap
      have hstrip : pyStrip (getCell grid c.1 c.2) = getCell grid c.1 c.2 :=
        pyStrip_eq_self_of_lower_eq _ h (eq_of_beq hsym) hh
      have hval : RunSim.validate_symbol_insertion rect h grid = true := by
        unfold RunSim.validate_symbol_insertion
        rw [hinv]
        dsimp only
        rw [hstrip]
        exact hsym
      by_cases hcount : RunSim.validate_grid_count grid n = true
      · simp [hcount, hval]
      · simp [hcount]

/-! ## Claims -/

/-- C1: the claim states that `check_win_or_not` reports a player as winning
exactly when some winning line is a subset of that player's positions, and in
particular returns (true, false) on [[X,X,X],[O,O,''],['','','']].  The code
instead raises `KeyError` on every board containing a symbol: lines 115/118 of
`run_simulation.py` index `rect_mapping_inv` - whose keys are the grid numbers
1..9 - with the (row, col) pair.  Evaluating the embedding at the claimed
board yields the error value `none`, not `some (true, false)`. -/
theorem C1_check_win_crashes :
    RunSim.check_win_or_not [["X","X","X"],["O","O",""],["","",""]] "X" "O" = none ∧
      RunSim.check_win_or_not [["X","X","X"],["O","O",""],["","",""]] "X" "O" ≠
        some (true, false) := by
  constructor
  · rfl
  · decide

/-- C8: the Position to (row, col) mapping is a bijection between 1..9 and the
nine cells in fixed row-major order: `rectangle_mapping` (identical in
`mini_max_algo.py` and `run_simulation.py`) followed by `rect_mapping_inv` is
the identity on every (row, col) pair, and `rect_mapping_inv` followed by
`rectangle_mapping` is the identity on every position 1..9. -/
theorem C8_position_bijection :
    MiniMax.rectangle_mapping = RunSim.rectangle_mapping ∧
    (∀ p : Fin 3 × Fin 3,
      (dictGet RunSim.rectangle_mapping ((p.1 : Nat), (p.2 : Nat))).bind
        (fun r => dictGet RunSim.rect_mapping_inv (.n r)) =
          some (.p ((p.1 : Nat), (p.2 : Nat)))) ∧
    (∀ r : Fin 9,
      (dictGet RunSim.rect_mapping_inv (.n (r.val + 1))).bind
        (fun v => match v with
          | RunSim.PyVal.p c => dictGet RunSim.rectangle_mapping c
          | RunSim.PyVal.n _ => none) = some (r.val + 1)) := by
  refine ⟨rfl, ?_, ?_⟩ <;> decide

/-- C9: frame property of the backtracking search of `mini_max_algo.py`: for
every board, every hypothetical in-place cell write performed by the recursive
`minimax` and by `get_best_move` is undone by its matching restore, so the
board returned next to the result equals the input board. -/
theorem C9_search_restores_board (ai human : String) (b : Board) :
    (∀ (fuel depth : Nat) (m : Bool),
      (MiniMax.minimaxF ai human fuel b depth m).2 = b) ∧
    (MiniMax.get_best_move ai human b).2 = b :=
  ⟨fun fuel depth m => MiniMax.minimaxF_frame ai human fuel b depth m,
   MiniMax.get_best_move_frame ai human b⟩

/-- C5: the count check accepts an observed board exactly when its number of
non-empty cells equals the expected turn index, and the validation sequence
rejects with the count-mismatch outcome otherwise; in particular, with one
confirmed "x" in the ledger and an observed board holding two new symbols at
turn index 2, the turn is rejected with the count-mismatch outcome. -/
theorem C5_count_gate :
    (∀ (grid : Board) (n : Nat), grid.length = 3 → (∀ row ∈ grid, row.length = 3) →
      (RunSim.validate_grid_count grid n = true ↔
        (grid.map fun row => row.countP fun cell => cell != "").sum = n)) ∧
    (RunSim.humanTurn [((0, 0), "x")]
        [["x","x",""],["","o",""],["","",""]] "x" "o" 2).1 =
      RunSim.TurnOutcome.countMismatch := by
  constructor
  · intro grid n h3 hr
    unfold RunSim.validate_grid_count
    rw [gridCount_eq_rowSum grid h3 hr]
    constructor
    · intro h
      exact (Nat.beq_eq_true_eq _ _).mp h |>.symm
    · intro h
      exact (Nat.beq_eq_true_eq _ _).mpr h.symm
  · decide

/-- C5 witness: the count-check equivalence applied to a concrete 3x3 board
with three filled cells. -/
theorem C5_count_gate_witness :
    RunSim.validate_grid_count [["x","x",""],["","o",""],["","",""]] 3 = true ↔
      (([["x","x",""],["","o",""],["","",""]] : Board).map
        fun row => row.countP fun cell => cell != "").sum = 3 :=
  C5_count_gate.1 [["x","x",""],["","o",""],["","",""]] 3 (by decide) (by decide)

/-- C6 (amended): `validate_symbol_insertion` compares the symbol at the
looked-up cell with the expected symbol case-insensitively and after trimming
whitespace, as claimed.  But a turn whose new cell holds the opposing player's
symbol is rejected by the earlier no-move gate (`find_rect` only matches cells
holding the expected symbol), not with the wrong-symbol outcome: whenever the
expected symbol carries no surrounding whitespace, the wrong-symbol branch of
the validation sequence is unreachable. -/
theorem C6_trimmed_match_and_dead_wrong_symbol :
    (∀ (grid : Board) (sym : String) (rn x y : Nat),
      dictGet RunSim.rect_mapping_inv (.n rn) = some (.p (x, y)) →
      (RunSim.validate_symbol_insertion rn sym grid = true ↔
        pyLower (pyStrip (getCell grid x y)) = pyLower sym)) ∧
    (∀ (cache : RunSim.Cache) (grid : Board) (h r : String) (n : Nat),
      h.data.all (fun c => !isPySpace c) = true →
      (RunSim.humanTurn cache grid h r n).1 ≠ RunSim.TurnOutcome.wrongSymbol) := by
  constructor
  · intro grid sym rn x y hinv
    unfold RunSim.validate_symbol_insertion
    rw [hinv]
    exact beq_iff_eq
  · exact humanTurn_not_wrongSymbol

/-- C6 counterexample: an observed board whose new cell holds the opponent's
symbol ("o" where an "x" was expected) is rejected with the no-move outcome,
not the claimed wrong-symbol outcome. -/
theorem C6_counterexample :
    (RunSim.humanTurn [] [["o","",""],["","",""],["","",""]] "x" "o" 1).1 =
        RunSim.TurnOutcome.noMoveFound ∧
      RunSim.TurnOutcome.noMoveFound ≠ RunSim.TurnOutcome.wrongSymbol := by
  constructor
  · rfl
  · decide

/-- C6 witness: both parts applied at concrete inputs - the characterization at
cell 5 of a board holding "x" at the center, and the dead wrong-symbol branch
for the whitespace-free expected symbol "x". -/
theorem C6_trimmed_match_witness :
    (RunSim.validate_symbol_insertion 5 "X" [["","",""],["","x",""],["","",""]] = true ↔
      pyLower (pyStrip (getCell [["","",""],["","x",""],["","",""]] 1 1)) = pyLower "X") ∧
    (RunSim.humanTurn [] [["","",""],["","x",""],["","",""]] "x" "o" 1).1 ≠
      RunSim.TurnOutcome.wrongSymbol :=
  ⟨C6_trimmed_match_and_dead_wrong_symbol.1 [["","",""],["","x",""],["","",""]]
      "X" 5 1 1 (by rfl),
   C6_trimmed_match_and_dead_wrong_symbol.2 [] [["","",""],["","x",""],["","",""]]
      "x" "o" 1 (by decide)⟩

/-- C7: placement-ledger invariant: once the cache records a cell as filled,
no later `find_rect` call - over any sequence of observed grids and symbols,
however noisy - returns that cell's grid number as the new-move candidate. -/
theorem C7_ledger_invariant (i j : Nat) (cache0 : RunSim.Cache)
    (hrec : RunSim.cacheGet cache0 (i, j) ≠ none)
    (calls : List (Board × String)) :
    ∀ res ∈ (RunSim.runCalls cache0 calls).1, ∀ r, res = some r →
      dictGet RunSim.rectangle_mapping (i, j) ≠ some r := by
  induction calls generalizing cache0 with
  | nil =>
    intro res hres
    simp [RunSim.runCalls] at hres
  | cons gs rest ih =>
    intro res hres r hr
    obtain ⟨g, s⟩ := gs
    simp only [RunSim.runCalls, List.mem_cons] at hres
    rcases hres with h1 | h2
    · subst h1
      exact RunSim.find_rect_avoid g s i j cache0 hrec r hr
    · exact ih (RunSim.find_rect g s cache0).2
        (RunSim.find_rect_cache_mono g s cache0 (i, j) hrec) res h2 r hr

/-- C7 witness: with cell (0, 0) recorded, a later observation that also shows
the symbol at (0, 0) yields candidate 5 (the fresh center cell), and the
invariant instantiated at that call says the result cannot be cell 1. -/
theorem C7_ledger_invariant_witness :
    dictGet RunSim.rectangle_mapping (0, 0) ≠ some 5 :=
  C7_ledger_invariant 0 0 [((0, 0), "x")] (by decide)
    [([["x","",""],["","x",""],["","",""]], "x")]
    (some 5) (by decide) 5 rfl

theorem mem_of_getLast?_aux :
    ∀ (l : List (Nat × Nat)) (c : Nat × Nat), l.getLast? = some c → c ∈ l := by
  intro l
  induction l with
  | nil => intro c h; cases h
  | cons a t ih =>
    intro c h
    cases t with
    | nil =>
      have : a = c := by simpa using h
      subst this
      exact List.mem_cons_self a []
    | cons b t2 =>
      rw [List.getLast?_cons_cons] at h
      exact List.mem_cons_of_mem a (ih c h)

theorem getLast?_none_aux : ∀ (l : List (Nat × Nat)), l.getLast? = none → l = [] := by
  intro l
  induction l with
  | nil => intro _; rfl
  | cons a t ih =>
    intro h
    cases t with
    | nil => simp at h
    | cons b t2 =>
      rw [List.getLast?_cons_cons] at h
      exact absurd (ih h) (by simp)

/-- C10: on a 3x3 grid, a single `find_rect` call records in the ledger every
not-yet-recorded cell whose lowercased content matches the symbol, returns the
grid number of the last such cell in row-major scan order, and returns `none`
exactly when no such cell exists - in particular it never by itself rejects
the simultaneous addition of several matching cells. -/
theorem C10_find_rect_characterization (grid : Board) (symbol : String)
    (cache : RunSim.Cache) (h3 : grid.length = 3) :
    ((RunSim.find_rect grid symbol cache).1 = none ↔
      newCells grid symbol cache = []) ∧
    (∀ c, (newCells grid symbol cache).getLast? = some c →
      (RunSim.find_rect grid symbol cache).1 = dictGet RunSim.rectangle_mapping c) ∧
    (∀ c ∈ newCells grid symbol cache,
      RunSim.cacheGet (RunSim.find_rect grid symbol cache).2 c ≠ none) := by
  have hfr : RunSim.find_rect grid symbol cache =
      ((newCells grid symbol cache).foldl
        (fun _ c => dictGet RunSim.rectangle_mapping c) none,
       ((newCells grid symbol cache).reverse.map fun c => (c, symbol)) ++ cache) := by
    unfold RunSim.find_rect
    rw [show squareIdx grid.length = cellsIdx by rw [h3]; rfl]
    exact RunSim.find_rect_loop_spec grid symbol cellsIdx none cache (by decide)
  have hall : ∀ x ∈ cellsIdx, (dictGet RunSim.rectangle_mapping x).isSome = true := by
    decide
  rw [hfr]
  dsimp only
  rw [RunSim.foldl_const_last]
  refine ⟨?_, ?_, ?_⟩
  · cases hM : (newCells grid symbol cache).getLast? with
    | none =>
      constructor
      · intro _
        exact getLast?_none_aux _ hM
      · intro _
        rfl
    | some c =>
      constructor
      · intro hnone
        have hcM := mem_of_getLast?_aux _ c hM
        have hcells : c ∈ cellsIdx := (List.mem_filter.mp hcM).1
        have hsome := hall c hcells
        dsimp only at hnone
        rw [hnone] at hsome
        cases hsome
      · intro hMnil
        rw [hMnil] at hM
        cases hM
  · intro c hc
    simp only [hc]
  · intro c hcM
    have hmem : ((c, symbol)) ∈
        (((newCells grid symbol cache).reverse.map fun c => (c, symbol)) ++ cache) :=
      List.mem_append_left _ (List.mem_map.mpr ⟨c, List.mem_reverse.mpr hcM, rfl⟩)
    unfold RunSim.cacheGet dictGet
    intro hnone
    rw [Option.map_eq_none'] at hnone
    have := List.find?_eq_none.mp hnone (c, symbol) hmem
    simp at this

/-- C10 witness: an observed grid showing two unrecorded "x" cells, at (0, 1)
and (2, 0): the call returns grid number 7 (the later cell) and records both
cells in the ledger. -/
theorem C10_find_rect_characterization_witness :
    (RunSim.find_rect [["","x",""],["","",""],["x","",""]] "x" []).1 =
        dictGet RunSim.rectangle_mapping (2, 0) ∧
      RunSim.cacheGet
        (RunSim.find_rect [["","x",""],["","",""],["x","",""]] "x" []).2 (0, 1) ≠
          none :=
  ⟨(C10_find_rect_characterization [["","x",""],["","",""],["x","",""]] "x" []
      (by decide)).2.1 (2, 0) (by decide),
   (C10_find_rect_characterization [["","x",""],["","",""],["x","",""]] "x" []
      (by decide)).2.2 (0, 1) (by decide)⟩

theorem bestFold_all_filled (ai human : String) (b : Board) :
    ∀ (cells : List (Nat × Nat)),
      (∀ c ∈ cells, (getCell b c.1 c.2 == "") = false) →
      ∀ st, bestFold ai human b cells st = st := by
  intro cells
  induction cells with
  | nil => intro _ st; rfl
  | cons a rest ih =>
    intro h st
    rw [bestFold_cons, h a (List.mem_cons_self a rest), if_neg Bool.false_ne_true]
    exact ih (fun c hc => h c (List.mem_cons_of_mem a hc)) st

/-- C4 counterexample: on the already-won board `[[X,X,X],[O,O,''],['','','']]`
`run_algorithm` of `mini_max_algo.py` does not raise: it silently returns grid
cell 6 (every hypothetical move scores -10, so the strict-improvement scan
keeps the first empty cell, (1, 2)). -/
theorem C4_counterexample :
    MiniMax.run_algorithm [["X","X","X"],["O","O",""],["","",""]] =
      MiniMax.RunResult.cell (some 6) := by decide

/-- C4 (amended): only `get_best_move` of `mini_max_algo_v2.py` raises the
distinct errors: `InvalidBoardError` on a malformed board, `ValueError` on a
full valid board, `InvalidBoardError "Game already won"` on a board with a
winner; `run_algorithm` of `mini_max_algo.py` instead returns the sentinel
string (not an exception) on a full board and, per the counterexample, a
position on an already-won board. -/
theorem C4_v2_errors (ai human : String) (b : Board) :
    ((b.length ≠ 3 ∨ (b.any fun row => row.length ≠ 3) = true) →
      ∃ msg, MiniMaxV2.get_best_move ai human b = .invalidBoard msg) ∧
    (MiniMaxV2.validate_board ai human b = none →
      (∀ c ∈ cellsIdx, (getCell b c.1 c.2 == "") = false) →
      MiniMaxV2.get_best_move ai human b = .noMovesError) ∧
    (b.length = 3 →
      (b.any fun row => row.length ≠ 3) = false →
      (b.any fun row => row.any fun c => c != "" && c != ai && c != human) = false →
      ((((b.map fun row => row.count ai).sum : Int)) -
        ((b.map fun row => row.count human).sum : Int)).natAbs ≤ 1 →
      (MiniMaxV2.check_winner b).isSome = true →
      MiniMaxV2.get_best_move ai human b = .invalidBoard "Game already won") ∧
    ((∀ c ∈ cellsIdx, (getCell b c.1 c.2 == "") = false) →
      MiniMax.run_algorithm b = .msg "No valid moves available") := by
  refine ⟨?_, ?_, ?_, ?_⟩
  · rintro (h | h)
    · exact ⟨"Board must be 3x3 list", by
        unfold MiniMaxV2.get_best_move MiniMaxV2.validate_board
        rw [if_pos h]⟩
    · by_cases hlen : b.length ≠ 3
      · exact ⟨"Board must be 3x3 list", by
          unfold MiniMaxV2.get_best_move MiniMaxV2.validate_board
          rw [if_pos hlen]⟩
      · exact ⟨"Each row must contain 3 elements", by
          unfold MiniMaxV2.get_best_move MiniMaxV2.validate_board
          rw [if_neg hlen, if_pos h]⟩
  · intro hv hful
    have hnotE : ∀ c ∈ cellsIdx, ¬ (getCell b c.1 c.2 == "") = true := by
      intro c hc hcontra
      rw [hful c hc] at hcontra
      exact Bool.false_ne_true hcontra
    have hw : ∀ p, MiniMaxV2.find_winning_move b p = none := fun p =>
      List.find?_eq_none.mpr fun c hc hcontra =>
        hnotE c hc ((Bool.and_eq_true _ _).mp hcontra).1
    have hfk : ∀ p, MiniMaxV2.find_fork b p = none := fun p =>
      List.find?_eq_none.mpr fun c hc hcontra =>
        hnotE c hc ((Bool.and_eq_true _ _).mp hcontra).1
    have hforks : MiniMaxV2.find_all_forks b human = [] := by
      unfold MiniMaxV2.find_all_forks
      refine List.filter_eq_nil.mpr fun c hc hcontra =>
        hnotE c hc ((Bool.and_eq_true _ _).mp hcontra).1
    have hcen : (getCell b 1 1 == "") = false := hful (1, 1) (by decide)
    have h00 : (getCell b 0 0 == "") = false := hful (0, 0) (by decide)
    have h02 : (getCell b 0 2 == "") = false := hful (0, 2) (by decide)
    have h20 : (getCell b 2 0 == "") = false := hful (2, 0) (by decide)
    have h22 : (getCell b 2 2 == "") = false := hful (2, 2) (by decide)
    have h00n : getCell b 0 0 ≠ "" := by intro hx; rw [hx] at h00; simp at h00
    have h02n : getCell b 0 2 ≠ "" := by intro hx; rw [hx] at h02; simp at h02
    have h20n : getCell b 2 0 ≠ "" := by intro hx; rw [hx] at h20; simp at h20
    have h22n : getCell b 2 2 ≠ "" := by intro hx; rw [hx] at h22; simp at h22
    have hoc : MiniMaxV2.opposite_corner human b = none := by
      simp [MiniMaxV2.opposite_corner, h00n, h02n, h20n, h22n]
    simp [MiniMaxV2.get_best_move, hv, hw, hfk, hforks, hcen, hoc]
    split
    · rename_i m hm
      exact absurd (List.find?_some hm) (hnotE m (by
        have hmem := List.mem_of_find?_eq_some hm
        fin_cases hmem <;> decide))
    · split
      · rename_i m2 hm2
        exact absurd (List.find?_some hm2) (hnotE m2 (by
          have hmem := List.mem_of_find?_eq_some hm2
          fin_cases hmem <;> decide))
      · rfl
  · intro h3 hrows hsyms hcnt hwin
    have hv : MiniMaxV2.validate_board ai human b = some "Game already won" := by
      unfold MiniMaxV2.validate_board
      rw [if_neg (by simp [h3]), if_neg (by rw [hrows]; exact Bool.false_ne_true),
        if_neg (by rw [hsyms]; exact Bool.false_ne_true), if_neg (by omega),
        if_pos hwin]
    unfold MiniMaxV2.get_best_move
    rw [hv]
  · intro hful
    unfold MiniMax.run_algorithm MiniMax.get_best_move
    rw [bestLoop_eq_fold, bestFold_all_filled "O" "X" b cellsIdx hful (none, none)]

/-- C4 witness: a 2x2 board is rejected as malformed; the full drawn board
`[[X,O,X],[X,O,O],[O,X,X]]` yields the v2 no-moves error but only the v1
sentinel string; the won board `[[X,X,X],[O,O,''],['','','']]` is rejected by
v2 as already won. -/
theorem C4_v2_errors_witness :
    (∃ msg, MiniMaxV2.get_best_move "O" "X" [["X","X"],["O","O"]] =
        MiniMaxV2.MoveResult.invalidBoard msg) ∧
      MiniMaxV2.get_best_move "O" "X" [["X","O","X"],["X","O","O"],["O","X","X"]] =
        MiniMaxV2.MoveResult.noMovesError ∧
      MiniMaxV2.get_best_move "O" "X" [["X","X","X"],["O","O",""],["","",""]] =
        MiniMaxV2.MoveResult.invalidBoard "Game already won" ∧
      MiniMax.run_algorithm [["X","O","X"],["X","O","O"],["O","X","X"]] =
        MiniMax.RunResult.msg "No valid moves available" :=
  ⟨(C4_v2_errors "O" "X" [["X","X"],["O","O"]]).1 (Or.inl (by decide)),
   (C4_v2_errors "O" "X" [["X","O","X"],["X","O","O"],["O","X","X"]]).2.1
     (by decide) (by decide),
   (C4_v2_errors "O" "X" [["X","X","X"],["O","O",""],["","",""]]).2.2.1
     (by decide) (by decide) (by decide) (by decide) (by decide),
   (C4_v2_errors "O" "X" [["X","O","X"],["X","O","O"],["O","X","X"]]).2.2.2
     (by decide)⟩

/-- C3 counterexample: `get_best_move` of `mini_max_algo.py` on the empty
board returns (0, 0), not the center (1, 1). -/
theorem C3_counterexample :
    (MiniMax.get_best_move "O" "X" emptyBd).1 ≠ some (1, 1) := by
  rw [getBestMove_empty]
  decide

theorem run_algorithm_cell (board : Board) (mv : Nat × Nat)
    (h : (MiniMax.get_best_move "O" "X" board).1 = some mv) :
    MiniMax.run_algorithm board =
      MiniMax.RunResult.cell (dictGet MiniMax.rectangle_mapping mv) := by
  unfold MiniMax.run_algorithm
  rw [h]

/-- C3 (amended): only `mini_max_algo_v2.py` opens in the center on the empty
board; the search of `mini_max_algo.py` opens at the top-left corner, so
`run_algorithm` returns grid cell 1, not 5. -/
theorem C3_center_only_v2 :
    MiniMaxV2.get_best_move "O" "X" emptyBd = MiniMaxV2.MoveResult.ok (1, 1) ∧
      (MiniMax.get_best_move "O" "X" emptyBd).1 = some (0, 0) ∧
      MiniMax.run_algorithm emptyBd = MiniMax.RunResult.cell (some 1) := by
  refine ⟨by decide, getBestMove_empty, ?_⟩
  rw [run_algorithm_cell emptyBd (0, 0) getBestMove_empty]
  rfl

/-- C2 counterexample: on the reachable, legal, non-terminal board `bC2`
(O to move), the heuristic of `mini_max_algo_v2.py` answers (0, 2), a move of
negative minimax score (a forced loss for O), although the empty center (1, 1)
has score 0. -/
theorem C2_counterexample :
    applyMoves emptyBd
        [((0,1),"X"), ((1,2),"O"), ((1,0),"X"), ((2,0),"O"), ((2,2),"X")] =
        some bC2 ∧
      MiniMaxV2.validate_board "O" "X" bC2 = none ∧
      MiniMaxV2.get_best_move "O" "X" bC2 = MiniMaxV2.MoveResult.ok (0, 2) ∧
      moveScore "O" "X" bC2 (0, 2) < 0 ∧
      (1, 1) ∈ cellsIdx ∧ getCell bC2 1 1 = "" ∧
      0 ≤ moveScore "O" "X" bC2 (1, 1) := by
  refine ⟨by decide, by decide, by decide, by decide, by decide, rfl, by decide⟩

/-- C2 (amended): the property holds for the search strategy of
`mini_max_algo.py`: whenever some empty cell has minimax score >= 0, the move
`get_best_move` returns also has score >= 0, so the search never answers a
forced loss while a non-losing move exists; by the counterexample the
heuristic of `mini_max_algo_v2.py` violates this. -/
theorem C2_search_no_forced_loss (ai human : String) (b : Board)
    (h : ∃ c ∈ cellsIdx, getCell b c.1 c.2 = "" ∧ 0 ≤ moveScore ai human b c) :
    ∃ m, (MiniMax.get_best_move ai human b).1 = some m ∧
      0 ≤ moveScore ai human b m := by
  obtain ⟨c, hcmem, hcemp, hcge⟩ := h
  obtain ⟨s', hs', hle⟩ :=
    bestFold_ge_elem ai human b cellsIdx (none, none) c hcmem hcemp
  rcases bestFold_inv ai human b cellsIdx (none, none) (Or.inl ⟨rfl, rfl⟩) with
    ⟨h1, _⟩ | ⟨s, m, hs, hm, hscore⟩
  · rw [h1] at hs'
    cases hs'
  · have hss : s = s' := by
      rw [hs] at hs'
      exact Option.some_inj.mp hs'
  
    refine ⟨m, ?_, ?_⟩
    · show (MiniMax.bestLoop ai human cellsIdx b none none).1 = some m
      rw [bestLoop_eq_fold]
      exact hm
    · rw [hscore, hss]
      exact le_trans hcge hle

/-- C2 witness: on `[[X,O,X],[X,O,O],[O,X,'']]` the single empty cell (2, 2)
draws, and the returned move indeed has score >= 0. -/
theorem C2_search_no_forced_loss_witness :
    ∃ m, (MiniMax.get_best_move "O" "X"
        [["X","O","X"],["X","O","O"],["O","X",""]]).1 = some m ∧
      0 ≤ moveScore "O" "X" [["X","O","X"],["X","O","O"],["O","X",""]] m :=
  C2_search_no_forced_loss "O" "X" [["X","O","X"],["X","O","O"],["O","X",""]]
    ⟨(2, 2), by decide, rfl, by decide⟩
